import Mathlib

/-!
Verification development for the dflow-mcp repository: a shallow embedding of
the tool catalog, the outbound HTTP client, the tool dispatcher and the three
serverless transport adapters, together with theorems settling the frozen
claims about them.

Sources embedded here:
- the stdio/Smithery MCP server (class DFlowAPIClient, the TOOLS dispatch
  switch and the CallToolRequestSchema handler), identical in the two bun
  server files;
- the serverless apiRequest helper and the Netlify JSON-RPC handler;
- the Deno JSON-RPC handler (its POST branch);
- the claude-desktop-format Netlify handler.
-/

set_option maxHeartbeats 1000000

namespace DflowMcp

/-- A JavaScript value as it flows through the servers: the JSON universe
plus `undefined`, which the handlers use and test for explicitly.
Objects are insertion-ordered association lists of fields, matching the
insertion-order semantics of JS object literals and JSON.parse output. -/
inductive JSValue where
  | undefined
  | null
  | bool (b : Bool)
  | num (n : Int)
  | str (s : String)
  | arr (elems : List JSValue)
  | obj (fields : List (String × JSValue))
  deriving Repr

namespace JSValue

/-- JS truthiness: `undefined`, `null`, `false`, `0` and `""` are falsy;
every object and array (even empty) is truthy. -/
def truthy : JSValue → Bool
  | .undefined => false
  | .null => false
  | .bool b => b
  | .num n => decide (n ≠ 0)
  | .str s => decide (s ≠ "")
  | .arr _ => true
  | .obj _ => true

/-- A value is nullish when it is `undefined` or `null`: exactly the values
the DFlowAPIClient GET serializer skips (`value !== undefined && value !== null`). -/
def nullish : JSValue → Bool
  | .undefined => true
  | .null => true
  | _ => false

/-- Whether the value is exactly a given string (models a `===` comparison
against a string literal, as in a `switch` case or an `if` chain). -/
def isStr : JSValue → String → Bool
  | .str t, s => t = s
  | _, _ => false

/-- Whether the value is an array (models `Array.isArray`). -/
def isArray : JSValue → Bool
  | .arr _ => true
  | _ => false

end JSValue

/-- First-match lookup in an ordered field list; `undefined` when absent,
modelling JS property access on a plain object. -/
def lookupField : List (String × JSValue) → String → JSValue
  | [], _ => .undefined
  | (k, v) :: rest, key => if k = key then v else lookupField rest key

/-- JS property access `v[key]`: object field lookup; `undefined` on every
non-object (the handlers only ever read properties of parsed-JSON objects,
or of `undefined`-checked values). -/
def jsGet : JSValue → String → JSValue
  | .obj fields, key => lookupField fields key
  | _, _ => .undefined

/-- `Object.entries`: own enumerable string-keyed entries in insertion order.
Arrays and strings expose their indexed elements; primitives have none. -/
def jsEntries : JSValue → List (String × JSValue)
  | .obj fields => fields
  | .arr elems => (elems.enum.map fun (i, v) => (toString i, v))
  | .str s => (s.toList.enum.map fun (i, c) => (toString i, .str (String.singleton c)))
  | _ => []

mutual

/-- JS `String(value)` coercion, as used by `url.searchParams.append(key,
String(value))` and by template-literal interpolation of path segments. -/
def jsToString : JSValue → String
  | .undefined => "undefined"
  | .null => "null"
  | .bool b => if b then "true" else "false"
  | .num n => toString n
  | .str s => s
  | .arr elems => jsToStringElems elems
  | .obj _ => "[object Object]"

/-- Array-to-string: elements joined by commas, nullish elements rendered
empty (Array.prototype.join semantics). -/
def jsToStringElems : List JSValue → String
  | [] => ""
  | [v] => if v.nullish then "" else jsToString v
  | v :: rest =>
      (if v.nullish then "" else jsToString v) ++ "," ++ jsToStringElems rest

end

/-- JSON string escaping for the characters the repository's data can carry
(quotes, backslashes and the common control characters). -/
def escapeJsonChar (c : Char) : String :=
  if c = '"' then "\\\""
  else if c = '\\' then "\\\\"
  else if c = '\n' then "\\n"
  else if c = '\t' then "\\t"
  else if c = '\r' then "\\r"
  else String.singleton c

/-- Escape a string for inclusion in a JSON literal. -/
def escapeJson (s : String) : String :=
  s.toList.foldl (fun acc c => acc ++ escapeJsonChar c) ""

mutual

/-- Compact `JSON.stringify(value)`, used for POST request bodies.
Object members with `undefined` values are dropped; array holes render as
`null`. (A top-level `undefined` is unreachable behind the truthiness guard
of `post`; it is rendered as `null` here to keep the function total.) -/
def jsonStringify : JSValue → String
  | .undefined => "null"
  | .null => "null"
  | .bool b => if b then "true" else "false"
  | .num n => toString n
  | .str s => "\"" ++ escapeJson s ++ "\""
  | .arr elems => "[" ++ jsonStringifyElems elems ++ "]"
  | .obj fields => "\x7b" ++ jsonStringifyFields fields ++ "\x7d"

/-- Comma-joined array elements; `undefined` elements become `null`. -/
def jsonStringifyElems : List JSValue → String
  | [] => ""
  | [v] => jsonStringify v
  | v :: rest => jsonStringify v ++ "," ++ jsonStringifyElems rest

/-- Comma-joined object members, skipping `undefined`-valued ones. -/
def jsonStringifyFields : List (String × JSValue) → String
  | [] => ""
  | (k, v) :: rest =>
      match v with
      | .undefined => jsonStringifyFields rest
      | _ =>
          let entry := "\"" ++ escapeJson k ++ "\":" ++ jsonStringify v
          match jsonStringifyFields rest with
          | "" => entry
          | tail => entry ++ "," ++ tail

end

/-- Two spaces of indentation per depth level. -/
def indentOf (depth : Nat) : String :=
  String.join (List.replicate depth "  ")

mutual

/-- Pretty `JSON.stringify(value, null, 2)`, used to render a tool result as
the text of a content block. The claims treat this text opaquely; the
printer follows the two-space-indent shape of the JS builtin. -/
def jsonStringifyPretty (depth : Nat) : JSValue → String
  | .undefined => "null"
  | .null => "null"
  | .bool b => if b then "true" else "false"
  | .num n => toString n
  | .str s => "\"" ++ escapeJson s ++ "\""
  | .arr [] => "[]"
  | .arr elems =>
      "[\n" ++ jsonStringifyPrettyElems (depth + 1) elems
        ++ "\n" ++ indentOf depth ++ "]"
  | .obj fields =>
      match jsonStringifyPrettyFields (depth + 1) fields with
      | "" => "\x7b\x7d"
      | body => "\x7b\n" ++ body ++ "\n" ++ indentOf depth ++ "\x7d"

/-- Newline-separated, indented array elements. -/
def jsonStringifyPrettyElems (depth : Nat) : List JSValue → String
  | [] => ""
  | [v] => indentOf depth ++ jsonStringifyPretty depth v
  | v :: rest =>
      indentOf depth ++ jsonStringifyPretty depth v ++ ",\n"
        ++ jsonStringifyPrettyElems depth rest

/-- Newline-separated, indented object members, skipping `undefined` values. -/
def jsonStringifyPrettyFields (depth : Nat) : List (String × JSValue) → String
  | [] => ""
  | (k, v) :: rest =>
      match v with
      | .undefined => jsonStringifyPrettyFields depth rest
      | _ =>
          let entry := indentOf depth ++ "\"" ++ escapeJson k ++ "\": "
            ++ jsonStringifyPretty depth v
          match jsonStringifyPrettyFields depth rest with
          | "" => entry
          | tail => entry ++ ",\n" ++ tail

end

/-! ## Errors and fetch outcomes -/

/-- A thrown JavaScript value: either an `Error` (with its `name` and
`message` properties) or an arbitrary non-`Error` value (the handlers test
`error instanceof Error` and fall back to `String(error)`). -/
inductive JSError where
  | jsError (name : String) (message : String)
  | jsThrow (v : JSValue)
  deriving Repr

/-- The message a handler extracts:
`error instanceof Error ? error.message : String(error)`. -/
def JSError.messageOf : JSError → String
  | .jsError _ m => m
  | .jsThrow v => jsToString v

/-- The `error.message` property access (as in the Netlify handlers, which
read `.message` without an `instanceof` guard): `undefined` on values that
carry no such property. -/
def JSError.messageProp : JSError → JSValue
  | .jsError _ m => .str m
  | .jsThrow v => jsGet v "message"

/-! ## Outbound HTTP client

Embeds `DFlowAPIClient` of the stdio/Smithery servers (the two bun files
define it identically) and the serverless `apiRequest` helper (defined
identically in the Deno server and both Netlify functions). An outbound
call is reified as a `RestCall`; the network itself is an oracle supplied
to each theorem. -/

/-- The API origin configured in the stdio/Smithery servers. -/
def BASE_URL : String := "https://prediction-markets-api.dflow.net"

/-- The default request timeout of `DFlowAPIClient`, in milliseconds. -/
def DEFAULT_TIMEOUT : Nat := 30000

/-- `makeUrl`: strip one trailing slash from the base, ensure the path has a
leading slash, concatenate. -/
def makeUrl (baseUrl path : String) : String :=
  (if baseUrl.data.getLast? = some '/' then String.mk baseUrl.data.dropLast
   else baseUrl)
    ++ (if path.data.head? = some '/' then path else "/" ++ path)

/-- One reified outbound REST call: method, path, the query-parameter list
(in append order) and, for POST, the serialized JSON body. -/
structure RestCall where
  method : String
  path : String
  query : List (String × String)
  body : Option String
  deriving Repr

/-- Render a query-parameter list as the `url.search` string (empty when no
parameters; percent-encoding is omitted — every input the claims evaluate is
plain alphanumeric/hyphen text, on which the encoding is the identity). -/
def renderQuery : List (String × String) → String
  | [] => ""
  | ps => "?" ++ String.intercalate "&" (ps.map fun (k, v) => k ++ "=" ++ v)

/-- The full URL a `RestCall` targets under a base origin. -/
def RestCall.url (c : RestCall) (baseUrl : String) : String :=
  makeUrl baseUrl c.path ++ renderQuery c.query

/-- The GET query serializer of `DFlowAPIClient.get`: append each entry
whose value is neither `undefined` nor `null`, coerced with `String(value)`,
in insertion order. -/
def dflowSerializeEntries (entries : List (String × JSValue)) :
    List (String × String) :=
  entries.foldl
    (fun acc kv => if kv.2.nullish then acc else acc ++ [(kv.1, jsToString kv.2)])
    []

/-- `DFlowAPIClient.get(path, params?)` as a `RestCall`: params are
serialized when present (`if (params)` — any truthy value has its entries
walked; an absent or falsy argument contributes nothing). -/
def dflowGet (path : String) (params : Option JSValue) : RestCall :=
  { method := "GET"
    path := path
    query :=
      match params with
      | none => []
      | some p => if p.truthy then dflowSerializeEntries (jsEntries p) else []
    body := none }

/-- `DFlowAPIClient.post(path, data?)` as a `RestCall`: the body is
`JSON.stringify(data)` when `data` is truthy, otherwise absent; no query
parameters are ever attached. -/
def dflowPost (path : String) (data : JSValue) : RestCall :=
  { method := "POST"
    path := path
    query := []
    body := if data.truthy then some (jsonStringify data) else none }

/-- What the underlying `fetch` did: resolved with a response (its `ok`
flag, status, body text, and the outcome of `response.json()`), or rejected
with a thrown value. A request that exceeds the timeout is aborted by the
`AbortController` and rejects with an `AbortError`. -/
inductive FetchOutcome where
  | resolved (ok : Bool) (status : Nat) (bodyText : String)
      (bodyJson : Except JSError JSValue)
  | rejected (e : JSError)

/-- The catch clause of `DFlowAPIClient.request`: an `Error` named
`AbortError` is replaced by `new Error('Request timeout')`; every other
thrown value is rethrown unchanged. -/
def abortToTimeout : JSError → JSError
  | .jsError n m =>
      if n = "AbortError" then .jsError "Error" "Request timeout"
      else .jsError n m
  | .jsThrow v => .jsThrow v

/-- `DFlowAPIClient.request` over a fetch outcome: non-2xx responses raise
`HTTP {status}: {text}`; the response body is parsed as JSON; every error
escaping the `try` passes through the abort-to-timeout catch. -/
def clientRequest (outcome : FetchOutcome) : Except JSError JSValue :=
  match outcome with
  | .rejected e => .error (abortToTimeout e)
  | .resolved ok status bodyText bodyJson =>
      if ok then
        match bodyJson with
        | .ok v => .ok v
        | .error e => .error (abortToTimeout e)
      else
        .error (abortToTimeout
          (.jsError "Error" ("HTTP " ++ toString status ++ ": " ++ bodyText)))

/-- The GET query serializer of the serverless `apiRequest`: for GET with a
truthy params value, append every entry coerced with `String(value)` — with
no nullish filtering. -/
def apiRequestQuery (method : String) (params : JSValue) :
    List (String × String) :=
  if params.truthy && decide (method = "GET") then
    (jsEntries params).map fun kv => (kv.1, jsToString kv.2)
  else []

/-- The serverless `apiRequest(method, path, params)` as a `RestCall`. -/
def apiRequestCall (method : String) (path : String) (params : JSValue) :
    RestCall :=
  { method := method
    path := path
    query := apiRequestQuery method params
    body :=
      if decide (method = "POST") && params.truthy then
        some (jsonStringify params)
      else none }

/-! ## Stdio tool dispatcher

The `switch (name)` of the stdio/Smithery CallToolRequestSchema handler,
reified as `routeTool : tool name → normalized arguments → Option RestCall`.
Each known tool maps to exactly one outbound call; an unknown name maps to
`none` (the `default:` branch, which throws `McpError(MethodNotFound,
'Unknown tool: {name}')`). -/

/-- Remove the path-segment key from an arguments object: the object rest
pattern `const \x7b key: x, ...rest \x7d = toolArgs`. -/
def restWithout (v : JSValue) (key : String) : JSValue :=
  .obj ((jsEntries v).filter fun kv => kv.1 ≠ key)

/-- The tool names the stdio dispatch switch recognizes, in case order. -/
def stdioToolNames : List String :=
  ["get_event", "get_events", "get_market", "get_market_by_mint",
   "get_markets", "get_markets_batch", "get_trades", "get_trades_by_mint",
   "get_forecast_percentile_history",
   "get_forecast_percentile_history_by_mint", "get_event_candlesticks",
   "get_market_candlesticks", "get_market_candlesticks_by_mint",
   "get_live_data", "get_live_data_by_event", "get_live_data_by_mint",
   "get_series", "get_series_by_ticker", "get_outcome_mints",
   "filter_outcome_mints", "get_tags_by_categories", "get_filters_by_sports",
   "search_events"]

/-- The dispatch switch of the stdio server: tool name and (already
normalized) arguments to the single outbound call, or `none` for the
`default:` branch. Path templates interpolate with `String(value)`. -/
def routeTool (name : String) (toolArgs : JSValue) : Option RestCall :=
  match name with
  | "get_event" =>
      some (dflowGet ("/api/v1/event/" ++ jsToString (jsGet toolArgs "event_id"))
        (some (.obj [("withNestedMarkets", jsGet toolArgs "withNestedMarkets")])))
  | "get_events" => some (dflowGet "/api/v1/events" (some toolArgs))
  | "get_market" =>
      some (dflowGet ("/api/v1/market/" ++ jsToString (jsGet toolArgs "market_id"))
        none)
  | "get_market_by_mint" =>
      some (dflowGet
        ("/api/v1/market/by-mint/" ++ jsToString (jsGet toolArgs "mint_address"))
        none)
  | "get_markets" => some (dflowGet "/api/v1/markets" (some toolArgs))
  | "get_markets_batch" => some (dflowPost "/api/v1/markets/batch" toolArgs)
  | "get_trades" => some (dflowGet "/api/v1/trades" (some toolArgs))
  | "get_trades_by_mint" =>
      some (dflowGet
        ("/api/v1/trades/by-mint/" ++ jsToString (jsGet toolArgs "mint_address"))
        (some (restWithout toolArgs "mint_address")))
  | "get_forecast_percentile_history" =>
      some (dflowGet
        ("/api/v1/event/" ++ jsToString (jsGet toolArgs "series_ticker") ++ "/"
          ++ jsToString (jsGet toolArgs "event_id")
          ++ "/forecast_percentile_history")
        (some (restWithout (restWithout toolArgs "series_ticker") "event_id")))
  | "get_forecast_percentile_history_by_mint" =>
      some (dflowGet
        ("/api/v1/event/by-mint/" ++ jsToString (jsGet toolArgs "mint_address")
          ++ "/forecast_percentile_history")
        (some (restWithout toolArgs "mint_address")))
  | "get_event_candlesticks" =>
      some (dflowGet
        ("/api/v1/event/" ++ jsToString (jsGet toolArgs "ticker")
          ++ "/candlesticks")
        (some (restWithout toolArgs "ticker")))
  | "get_market_candlesticks" =>
      some (dflowGet
        ("/api/v1/market/" ++ jsToString (jsGet toolArgs "ticker")
          ++ "/candlesticks")
        (some (restWithout toolArgs "ticker")))
  | "get_market_candlesticks_by_mint" =>
      some (dflowGet
        ("/api/v1/market/by-mint/" ++ jsToString (jsGet toolArgs "mint_address")
          ++ "/candlesticks")
        (some (restWithout toolArgs "mint_address")))
  | "get_live_data" =>
      some (dflowGet "/api/v1/live_data"
        (some (.obj [("milestoneIds", jsGet toolArgs "milestoneIds")])))
  | "get_live_data_by_event" =>
      some (dflowGet
        ("/api/v1/live_data/by-event/" ++ jsToString (jsGet toolArgs "event_ticker"))
        (some (restWithout toolArgs "event_ticker")))
  | "get_live_data_by_mint" =>
      some (dflowGet
        ("/api/v1/live_data/by-mint/" ++ jsToString (jsGet toolArgs "mint_address"))
        (some (restWithout toolArgs "mint_address")))
  | "get_series" => some (dflowGet "/api/v1/series" (some toolArgs))
  | "get_series_by_ticker" =>
      some (dflowGet
        ("/api/v1/series/" ++ jsToString (jsGet toolArgs "series_ticker")) none)
  | "get_outcome_mints" => some (dflowGet "/api/v1/outcome_mints" (some toolArgs))
  | "filter_outcome_mints" =>
      some (dflowPost "/api/v1/filter_outcome_mints" toolArgs)
  | "get_tags_by_categories" => some (dflowGet "/api/v1/tags_by_categories" none)
  | "get_filters_by_sports" => some (dflowGet "/api/v1/filters_by_sports" none)
  | "search_events" => some (dflowGet "/api/v1/search" (some toolArgs))
  | _ => none

/-- One MCP content block (all blocks the servers emit are text blocks). -/
inductive ContentBlock where
  | text (s : String)
  deriving Repr

/-- The value the CallToolRequestSchema handler returns: content blocks plus
the `isError` flag, which the success path leaves absent (`none`) and the
catch path sets to `true`. -/
structure CallToolResult where
  content : List ContentBlock
  isError : Option Bool
  deriving Repr

/-- `args || \x7b\x7d`: the handler substitutes an empty object for a falsy
(absent) arguments value. -/
def normalizeArgs (rawArgs : JSValue) : JSValue :=
  if rawArgs.truthy then rawArgs else .obj []

/-- The error result the catch clause builds. -/
def callToolErrorResult (name : String) (e : JSError) : CallToolResult :=
  { content := [.text ("Error calling " ++ name ++ ": " ++ e.messageOf)]
    isError := some true }

/-- The stdio CallToolRequestSchema handler over an upstream oracle: route
the tool name, run the single outbound call, pretty-print a success into one
text block, and turn every thrown error — the unknown-tool `McpError`
included — into a single error-flagged text block. (The MCP SDK prefixes an
`McpError` message with its code when rendering; the embedding keeps the
message the repository constructs.) -/
def handleCallTool (name : String) (rawArgs : JSValue)
    (oracle : RestCall → Except JSError JSValue) : CallToolResult :=
  match routeTool name (normalizeArgs rawArgs) with
  | none =>
      callToolErrorResult name (.jsError "McpError" ("Unknown tool: " ++ name))
  | some call =>
      match oracle call with
      | .ok v =>
          { content := [.text (jsonStringifyPretty 0 v)], isError := none }
      | .error e => callToolErrorResult name e

/-! ## Serverless transports: shared data

The two Netlify functions define byte-identical `TOOLS` and `SERVER_INFO`
literals; they are embedded once. -/

/-- Element access `v[i]` on an array value (`undefined` out of range or on
non-arrays), for the positional-args dialect. -/
def jsIndex (v : JSValue) (i : Nat) : JSValue :=
  match v with
  | .arr elems => elems.getD i .undefined
  | _ => .undefined

/-- An integer-typed, minimum-0 schema property used repeatedly. -/
def intProp (extra : List (String × JSValue)) (description : String) : JSValue :=
  .obj ([("type", .str "integer"), ("minimum", .num 0)] ++ extra
    ++ [("description", .str description)])

/-- A string-typed schema property. -/
def strProp (description : String) : JSValue :=
  .obj [("type", .str "string"), ("description", .str description)]

/-- The five-tool `TOOLS` catalog of the Netlify functions. -/
def serverlessToolsList : List JSValue :=
  [ .obj [("name", .str "get_events"),
      ("description",
        .str "Get a paginated list of all events with optional filtering and sorting."),
      ("inputSchema", .obj [("type", .str "object"),
        ("properties", .obj [
          ("limit", intProp [("maximum", .num 100)]
            "Maximum number of events to return (0-100)"),
          ("cursor", intProp [] "Pagination cursor for fetching next page")]),
        ("required", .arr [])])],
    .obj [("name", .str "get_markets"),
      ("description",
        .str "Get a paginated list of markets with optional filtering."),
      ("inputSchema", .obj [("type", .str "object"),
        ("properties", .obj [
          ("limit", intProp [("maximum", .num 100)]
            "Number of markets to return (0-100)"),
          ("cursor", intProp [] "Pagination cursor for fetching next page")]),
        ("required", .arr [])])],
    .obj [("name", .str "get_trades"),
      ("description",
        .str "Get a paginated list of trades across markets with optional filtering."),
      ("inputSchema", .obj [("type", .str "object"),
        ("properties", .obj [
          ("limit", intProp [("maximum", .num 100)]
            "Number of trades to return (0-100)"),
          ("cursor", strProp "Pagination cursor for fetching next page")]),
        ("required", .arr [])])],
    .obj [("name", .str "get_market_by_mint"),
      ("description", .str "Get market details by token mint address."),
      ("inputSchema", .obj [("type", .str "object"),
        ("properties", .obj [
          ("mint", strProp "Token mint address to look up market")]),
        ("required", .arr [.str "mint"])])],
    .obj [("name", .str "get_live_data"),
      ("description", .str "Get live data for events and markets."),
      ("inputSchema", .obj [("type", .str "object"),
        ("properties", .obj [
          ("event_ticker", strProp "Event ticker for live data"),
          ("market_ticker", strProp "Market ticker for live data")]),
        ("required", .arr [])])] ]

/-- The `TOOLS` array as a JSON value. (The `connectMCPServer` branch maps
each tool to its `name`/`description`/`inputSchema` fields, which are
exactly the fields present, in the same order, so the mapped array equals
the catalog itself.) -/
def serverlessTools : JSValue := .arr serverlessToolsList

/-- `SERVER_INFO.capabilities` of the Netlify functions. -/
def serverCapabilities : JSValue :=
  .obj [("tools", .obj [("listChanged", .bool false)]),
        ("prompts", .obj []), ("resources", .obj [])]

/-- `SERVER_INFO.serverInfo` of the Netlify functions. -/
def serverInfoInner : JSValue :=
  .obj [("name", .str "dflow-mcp-server"), ("version", .str "1.0.0"),
        ("description",
          .str "Prediction Market Metadata API server for DFlow platform")]

/-- The `SERVER_INFO` literal of the Netlify functions. -/
def SERVER_INFO : JSValue :=
  .obj [("protocolVersion", .str "2025-06-18"),
        ("capabilities", serverCapabilities),
        ("serverInfo", serverInfoInner)]

/-- The `getModels` result payload shared by the Netlify functions. -/
def getModelsResult : JSValue :=
  .obj [("models", .arr [
    .obj [("id", .str "dflow-prediction-markets"),
          ("name", .str "DFlow Prediction Markets"),
          ("description",
            .str "Access prediction market events, markets, trades, and live data"),
          ("provider", .str "dflow-mcp-server"),
          ("capabilities", .arr [.str "tools", .str "text-generation"])]])]

/-- The five-case `switch (name)` of both serverless `tools/call` handlers
(identical in the two Netlify functions): tool name value and normalized
arguments to the single `apiRequest` call, or `none` for the `default:`
branch (which throws `Error('Unknown tool: {name}')`). A non-string name
matches no case. -/
def serverlessToolRoute (nameV : JSValue) (toolArgs : JSValue) :
    Option RestCall :=
  match nameV with
  | .str "get_events" => some (apiRequestCall "GET" "/api/v1/events" toolArgs)
  | .str "get_markets" => some (apiRequestCall "GET" "/api/v1/markets" toolArgs)
  | .str "get_trades" => some (apiRequestCall "GET" "/api/v1/trades" toolArgs)
  | .str "get_market_by_mint" =>
      some (apiRequestCall "GET"
        ("/api/v1/markets/by-mint/" ++ jsToString (jsGet toolArgs "mint"))
        .undefined)
  | .str "get_live_data" =>
      some (apiRequestCall "GET"
        (if (jsGet toolArgs "event_ticker").truthy then
          "/api/v1/events/live-data/" ++ jsToString (jsGet toolArgs "event_ticker")
        else if (jsGet toolArgs "market_ticker").truthy then
          "/api/v1/markets/live-data/" ++ jsToString (jsGet toolArgs "market_ticker")
        else "/api/v1/live-data")
        .undefined)
  | _ => none

/-- A success content payload `\x7b content: [\x7b type: 'text', text:
JSON.stringify(result, null, 2) \x7d] \x7d`, shared by the serverless
`tools/call` handlers. -/
def contentPayload (v : JSValue) : JSValue :=
  .obj [("content", .arr [
    .obj [("type", .str "text"), ("text", .str (jsonStringifyPretty 0 v))]])]

/-- An HTTP response as the serverless handlers shape it: status code plus
the response body (a JSON value prior to its final `JSON.stringify`; the
CORS headers carry no claim-relevant information and are not modelled). -/
structure HttpResponse where
  status : Nat
  body : Option JSValue
  deriving Repr

/-- A JSON-RPC success envelope. -/
def rpcResultBody (id result : JSValue) : JSValue :=
  .obj [("jsonrpc", .str "2.0"), ("id", id), ("result", result)]

/-- A JSON-RPC error envelope; `message` is kept as a JS value because one
handler writes `error.message` without an `instanceof` guard. -/
def rpcErrorBody (id : JSValue) (code : Int) (message : JSValue)
    (data : Option JSValue) : JSValue :=
  .obj [("jsonrpc", .str "2.0"), ("id", id),
        ("error", .obj ([("code", .num code), ("message", message)]
          ++ (match data with | none => [] | some d => [("data", d)])))]

/-- The `try \x7b switch (name) ... default: throw ... \x7d` shape shared by
every serverless `tools/call` handler: an unknown tool name becomes the
thrown `Error('Unknown tool: {name}')`; a known one runs its single
outbound call. -/
def toolCallOutcome (route : Option RestCall) (unknownName : String)
    (oracle : RestCall → Except JSError JSValue) :
    Except JSError JSValue :=
  match route with
  | none => .error (.jsError "Error" ("Unknown tool: " ++ unknownName))
  | some call => oracle call

/-! ## Netlify JSON-RPC handler -/

/-- The response the Netlify `tools/call` branch builds from the call
outcome: a content-wrapped result on success, a -32603 error carrying
`\x7b tool, arguments \x7d` diagnostics on failure. -/
def netlifyToolCallResponse (rid nameV toolArgs : JSValue)
    (outcome : Except JSError JSValue) : HttpResponse :=
  match outcome with
  | .ok v => ⟨200, some (rpcResultBody rid (contentPayload v))⟩
  | .error e =>
      ⟨200, some (rpcErrorBody rid (-32603) e.messageProp
        (some (.obj [("tool", nameV), ("arguments", toolArgs)])))⟩

/-- The body of the Netlify handler's outer catch: triggered by a JSON parse
failure, and equally by any exception thrown while handling a parsed
request. -/
def netlifyCatchBody (e : JSError) : JSValue :=
  .obj [("jsonrpc", .str "2.0"), ("id", .null),
        ("error", .obj [("code", .num (-32700)),
          ("message", .str "Parse error or internal error"),
          ("data", e.messageProp)])]

/-- The method-not-found body of the Netlify handler, listing the supported
methods in `error.data.available_methods`. -/
def netlifyMethodNotFoundBody (id : JSValue) : JSValue :=
  rpcErrorBody id (-32601) (.str "Method not found")
    (some (.obj [("available_methods", .arr [
      .str "getModels", .str "connectMCPServer", .str "initialize",
      .str "tools/list", .str "tools/call", .str "tools/describe",
      .str "server/info"])]))

/-- The `connectMCPServer` result payload of the Netlify JSON-RPC handler. -/
def netlifyConnectResult : JSValue :=
  .obj [("name", .str "dflow-mcp-server"), ("version", .str "1.0.0"),
        ("description",
          .str "Prediction Market Metadata API server for DFlow platform"),
        ("capabilities", serverCapabilities),
        ("tools", serverlessTools),
        ("connected", .bool true),
        ("server_url", .str "https://dflow.opensvm.com/api/mcp")]

/-- The `tools/describe` branch of the Netlify handler: look the tool up in
the catalog by name (`TOOLS.find(t => t.name === toolName)`), answer the
descriptor or a -32602 error. -/
def netlifyDescribeResponse (rid toolName : JSValue) : HttpResponse :=
  match serverlessToolsList.find? (fun t =>
    match jsGet t "name" with
    | .str s => toolName.isStr s
    | _ => false) with
  | none =>
      ⟨200, some (rpcErrorBody rid (-32602)
        (.str ("Tool not found: " ++ jsToString toolName)) none)⟩
  | some tool => ⟨200, some (rpcResultBody rid tool)⟩

/-- The routed part of the Netlify handler, for a successfully parsed
request: the if-chain over recognized method spellings. Accessing a
property of a nullish `request.params` throws, surfacing as an exception
to the outer catch. -/
def netlifyCore (req : JSValue)
    (oracle : RestCall → Except JSError JSValue) :
    Except JSError HttpResponse :=
  let rid := jsGet req "id"
  let method := jsGet req "method"
  if method.isStr "getModels" then
    .ok ⟨200, some (rpcResultBody rid getModelsResult)⟩
  else if method.isStr "connectMCPServer" then
    .ok ⟨200, some (rpcResultBody rid netlifyConnectResult)⟩
  else if method.isStr "initialize" then
    .ok ⟨200, some (rpcResultBody rid SERVER_INFO)⟩
  else if method.isStr "tools/list" then
    .ok ⟨200, some (rpcResultBody rid (.obj [("tools", serverlessTools)]))⟩
  else if method.isStr "tools/call" then
    let params := jsGet req "params"
    if params.nullish then
      .error (.jsError "TypeError"
        "Cannot destructure property of undefined or null")
    else
      let nameV := jsGet params "name"
      let toolArgs := normalizeArgs (jsGet params "arguments")
      .ok (netlifyToolCallResponse rid nameV toolArgs
        (toolCallOutcome (serverlessToolRoute nameV toolArgs)
          (jsToString nameV) oracle))
  else if method.isStr "tools/describe" then
    let params := jsGet req "params"
    if params.nullish then
      .error (.jsError "TypeError"
        "Cannot read properties of undefined or null")
    else
      .ok (netlifyDescribeResponse rid (jsGet params "name"))
  else if method.isStr "server/info" then
    .ok ⟨200, some (rpcResultBody rid SERVER_INFO)⟩
  else
    .ok ⟨200, some (netlifyMethodNotFoundBody rid)⟩

/-- The Netlify JSON-RPC handler: CORS preflight, POST-only check, JSON
parse, routing, and the outer catch that renders both parse failures and
mid-handling exceptions as a -32700 envelope with `id: null`. -/
def netlifyHandler (httpMethod : String) (parsed : Except JSError JSValue)
    (oracle : RestCall → Except JSError JSValue) : HttpResponse :=
  if httpMethod = "OPTIONS" then ⟨200, none⟩
  else if httpMethod ≠ "POST" then
    ⟨405, some (rpcErrorBody .null (-32600) (.str "Method not allowed") none)⟩
  else
    match parsed with
    | .error e => ⟨200, some (netlifyCatchBody e)⟩
    | .ok req =>
        match netlifyCore req oracle with
        | .ok resp => resp
        | .error e => ⟨200, some (netlifyCatchBody e)⟩

/-! ## Deno JSON-RPC handler (POST branch)

The Deno server's GET branches (static HTML page, health check, 404) carry
no JSON-RPC behavior and are outside the modelled surface; the embedding
covers its POST JSON-RPC handling. -/

/-- The two-tool catalog of the Deno server. -/
def denoToolsList : List JSValue :=
  [ .obj [("name", .str "get_events"),
      ("description",
        .str "Get a paginated list of all events with optional filtering and sorting."),
      ("inputSchema", .obj [("type", .str "object"),
        ("properties", .obj [
          ("limit", intProp [] "Maximum number of events to return"),
          ("cursor", intProp [] "Pagination cursor")]),
        ("required", .arr [])])],
    .obj [("name", .str "get_markets"),
      ("description",
        .str "Get a paginated list of markets with optional filtering."),
      ("inputSchema", .obj [("type", .str "object"),
        ("properties", .obj [
          ("limit", intProp [] "Number of markets to return"),
          ("cursor", intProp [] "Pagination cursor")]),
        ("required", .arr [])])] ]

/-- The Deno server's `TOOLS` as a JSON value. -/
def denoTools : JSValue := .arr denoToolsList

/-- The two-case `switch (name)` of the Deno `tools.call` handler. -/
def denoToolRoute (nameV : JSValue) (toolArgs : JSValue) : Option RestCall :=
  match nameV with
  | .str "get_events" => some (apiRequestCall "GET" "/api/v1/events" toolArgs)
  | .str "get_markets" => some (apiRequestCall "GET" "/api/v1/markets" toolArgs)
  | _ => none

/-- The response the Deno `tools.call` branch builds from the call outcome:
a content-wrapped result on success, a -32603 error with only the message
(no `data`) on failure. -/
def denoToolCallResponse (rid : JSValue)
    (outcome : Except JSError JSValue) : HttpResponse :=
  match outcome with
  | .ok v => ⟨200, some (rpcResultBody rid (contentPayload v))⟩
  | .error e => ⟨200, some (rpcErrorBody rid (-32603) (.str e.messageOf) none)⟩

/-- The Deno parse-error response: status 400 with a -32700 envelope and
`id: null`. The outer catch produces the same response for exceptions
thrown while handling a parsed request. -/
def denoParseErrorResponse : HttpResponse :=
  ⟨400, some (.obj [("jsonrpc", .str "2.0"), ("id", .null),
    ("error", .obj [("code", .num (-32700)),
      ("message", .str "Parse error")])])⟩

/-- The routed part of the Deno POST handler for a parsed body. -/
def denoCore (body : JSValue)
    (oracle : RestCall → Except JSError JSValue) :
    Except JSError HttpResponse :=
  let rid := jsGet body "id"
  let method := jsGet body "method"
  if method.isStr "tools.list" || method.isStr "tools/list" then
    .ok ⟨200, some (rpcResultBody rid (.obj [("tools", denoTools)]))⟩
  else if method.isStr "tools.call" || method.isStr "tools/call" then
    let params := jsGet body "params"
    if params.nullish then
      .error (.jsError "TypeError"
        "Cannot destructure property of undefined or null")
    else
      let nameV := jsGet params "name"
      let toolArgs := normalizeArgs (jsGet params "arguments")
      .ok (denoToolCallResponse rid
        (toolCallOutcome (denoToolRoute nameV toolArgs)
          (jsToString nameV) oracle))
  else
    .ok ⟨200, some (rpcErrorBody rid (-32601) (.str "Method not found") none)⟩

/-- The Deno POST handler: parse, route, and the catch that renders any
failure as the status-400, code -32700 parse-error response. -/
def denoHandlerPost (parsed : Except JSError JSValue)
    (oracle : RestCall → Except JSError JSValue) : HttpResponse :=
  match parsed with
  | .error _ => denoParseErrorResponse
  | .ok body =>
      match denoCore body oracle with
      | .ok resp => resp
      | .error _ => denoParseErrorResponse

/-! ## Claude-desktop-format Netlify handler

This handler speaks a positional-args dialect: requests carry an `args`
array, a `method` and `type: 'rpc'`, and its responses are
`\x7b success, ... \x7d` objects rather than JSON-RPC envelopes. Dispatch
is by key lookup in the `claudeDesktopHandlers` object; the embedding
covers its six declared methods. -/

/-- `Object.keys(claudeDesktopHandlers)`, in declaration order. -/
def claudeMethodNames : List String :=
  ["connectMCPServer", "getModels", "tools/list", "tools/call",
   "initialize", "health"]

/-- The method-not-found body of the claude-desktop handler. -/
def claudeMethodNotFoundBody (req : JSValue) : JSValue :=
  .obj [("success", .bool false), ("error", .str "Method not found"),
    ("data", .obj [
      ("available_methods", .arr (claudeMethodNames.map JSValue.str)),
      ("request_detected",
        .str (if (jsGet req "args").truthy then "claude_desktop" else "unknown")),
      ("formats_supported", .arr [.str "claude_desktop_rpc"]),
      ("claude_desktop_example", .obj [
        ("args", .arr [.str "https://dflow.opensvm.com/api/mcp", .null]),
        ("id", .str "request_id"),
        ("method", .str "connectMCPServer"),
        ("type", .str "rpc")])])]

/-- The body the claude-desktop `tools/call` handler builds from the call
outcome: `success: true` with a content-wrapped result, or `success: false`
with the error message and `\x7b tool, arguments \x7d` diagnostics. -/
def claudeToolCallBody (toolName toolArgs : JSValue)
    (outcome : Except JSError JSValue) : JSValue :=
  match outcome with
  | .ok v => .obj [("success", .bool true), ("result", contentPayload v)]
  | .error e =>
      .obj [("success", .bool false), ("error", e.messageProp),
        ("data", .obj [("tool", toolName), ("arguments", toolArgs)])]

/-- Dispatch into `claudeDesktopHandlers[key]`: the response body for each
declared method, `none` when the key is not a handler. `now` stands for
`new Date().toISOString()` at the instant the handler runs. -/
def claudeDispatch (key : String) (req : JSValue) (now : String)
    (oracle : RestCall → Except JSError JSValue) : Option JSValue :=
  let argsV := jsGet req "args"
  match key with
  | "connectMCPServer" =>
      let serverUrl := jsIndex argsV 0
      some (.obj [("success", .bool true), ("connected", .bool true),
        ("name", .str "dflow-mcp-server"), ("version", .str "1.0.0"),
        ("description",
          .str "Prediction Market Metadata API server for DFlow platform"),
        ("capabilities", serverCapabilities),
        ("tools", serverlessTools),
        ("server_url",
          if serverUrl.truthy then serverUrl
          else .str "https://dflow.opensvm.com/api/mcp"),
        ("status", .str "connected"),
        ("timestamp", .str now),
        ("transport", .str "claude_desktop_rpc"),
        ("prompts", .arr []), ("resources", .arr []),
        ("protocolVersion", .str "2025-06-18")])
  | "getModels" =>
      some (.obj [("success", .bool true),
        ("models", jsGet getModelsResult "models")])
  | "tools/list" =>
      some (.obj [("success", .bool true), ("tools", serverlessTools)])
  | "tools/call" =>
      let toolName := jsIndex argsV 0
      let toolArgs := normalizeArgs (jsIndex argsV 1)
      some (claudeToolCallBody toolName toolArgs
        (toolCallOutcome (serverlessToolRoute toolName toolArgs)
          (jsToString toolName) oracle))
  | "initialize" =>
      some (.obj [("success", .bool true),
        ("protocolVersion", .str "2025-06-18"),
        ("capabilities", serverCapabilities),
        ("serverInfo", serverInfoInner)])
  | "health" =>
      some (.obj [("success", .bool true), ("status", .str "healthy"),
        ("timestamp", .str now), ("version", .str "1.0.0"),
        ("methods", .arr (claudeMethodNames.map JSValue.str)),
        ("transport", .str "claude_desktop_rpc"),
        ("tools_available", .num 5)])
  | _ => none

/-- The claude-desktop-format Netlify handler: CORS preflight, POST-only
check, its own parse try/catch (status 400, `success: false`, no JSON-RPC
envelope), dialect detection, and method dispatch. -/
def claudeHandler (httpMethod : String) (parsed : Except JSError JSValue)
    (now : String) (oracle : RestCall → Except JSError JSValue) :
    HttpResponse :=
  if httpMethod = "OPTIONS" then ⟨200, none⟩
  else if httpMethod ≠ "POST" then
    ⟨405, some (.obj [("success", .bool false),
      ("error", .str "Method not allowed")])⟩
  else
    match parsed with
    | .error _ =>
        ⟨400, some (.obj [("success", .bool false),
          ("error", .str "Invalid JSON format")])⟩
    | .ok req =>
        let argsV := jsGet req "args"
        if argsV.truthy && argsV.isArray && (jsGet req "method").truthy
            && (jsGet req "type").isStr "rpc" then
          match claudeDispatch (jsToString (jsGet req "method")) req now oracle with
          | some body => ⟨200, some body⟩
          | none => ⟨200, some (claudeMethodNotFoundBody req)⟩
        else ⟨200, some (claudeMethodNotFoundBody req)⟩

/-! ## api-mcp.js Netlify handler

A reduced three-tool JSON-RPC function: `tools.list`/`tools/list`,
`tools.call`/`tools/call`, a bare -32601 otherwise, and a status-400
-32700 parse catch (the same response literal as the Deno server's). -/

/-- Its three-tool catalog: the Deno server's two descriptors (identical
literals) plus `get_trades`. The Bun web server's `TOOLS` is this same
three-descriptor literal. -/
def apiMcpToolsList : List JSValue :=
  denoToolsList ++
    [ .obj [("name", .str "get_trades"),
        ("description",
          .str "Get a paginated list of trades across markets with optional filtering."),
        ("inputSchema", .obj [("type", .str "object"),
          ("properties", .obj [
            ("limit", intProp [] "Number of trades to return"),
            ("cursor", strProp "Pagination cursor")]),
          ("required", .arr [])])] ]

/-- The `TOOLS` array of api-mcp.js (and of the Bun web server). -/
def apiMcpTools : JSValue := .arr apiMcpToolsList

/-- The three-case `switch (name)` of the api-mcp.js `tools.call` handler. -/
def apiMcpToolRoute (nameV : JSValue) (toolArgs : JSValue) : Option RestCall :=
  match nameV with
  | .str "get_events" => some (apiRequestCall "GET" "/api/v1/events" toolArgs)
  | .str "get_markets" => some (apiRequestCall "GET" "/api/v1/markets" toolArgs)
  | .str "get_trades" => some (apiRequestCall "GET" "/api/v1/trades" toolArgs)
  | _ => none

/-- The api-mcp.js tool-call response: content-wrapped result on success,
a -32603 error carrying `error.message` (read without an `instanceof`
guard) and no `data` on failure. -/
def apiMcpToolCallResponse (rid : JSValue)
    (outcome : Except JSError JSValue) : HttpResponse :=
  match outcome with
  | .ok v => ⟨200, some (rpcResultBody rid (contentPayload v))⟩
  | .error e => ⟨200, some (rpcErrorBody rid (-32603) e.messageProp none)⟩

/-- The routed part of api-mcp.js for a parsed request. -/
def apiMcpCore (req : JSValue)
    (oracle : RestCall → Except JSError JSValue) :
    Except JSError HttpResponse :=
  let rid := jsGet req "id"
  let method := jsGet req "method"
  if method.isStr "tools.list" || method.isStr "tools/list" then
    .ok ⟨200, some (rpcResultBody rid (.obj [("tools", apiMcpTools)]))⟩
  else if method.isStr "tools.call" || method.isStr "tools/call" then
    let params := jsGet req "params"
    if params.nullish then
      .error (.jsError "TypeError"
        "Cannot destructure property of undefined or null")
    else
      let nameV := jsGet params "name"
      let toolArgs := normalizeArgs (jsGet params "arguments")
      .ok (apiMcpToolCallResponse rid
        (toolCallOutcome (apiMcpToolRoute nameV toolArgs)
          (jsToString nameV) oracle))
  else
    .ok ⟨200, some (rpcErrorBody rid (-32601) (.str "Method not found") none)⟩

/-- The api-mcp.js handler: no CORS-preflight branch, POST-only check with
a bare `\x7b error \x7d` body, and a catch answering any parse failure or
mid-handling exception with the status-400 -32700 `id: null` envelope
(byte-identical to the Deno server's parse-error response). -/
def apiMcpHandler (httpMethod : String) (parsed : Except JSError JSValue)
    (oracle : RestCall → Except JSError JSValue) : HttpResponse :=
  if httpMethod ≠ "POST" then
    ⟨405, some (.obj [("error", .str "Method not allowed")])⟩
  else
    match parsed with
    | .error _ => denoParseErrorResponse
    | .ok req =>
        match apiMcpCore req oracle with
        | .ok resp => resp
        | .error _ => denoParseErrorResponse

/-! ## mcp/index.js Netlify handler

The eight-method sibling of the main Netlify JSON-RPC function: the same
apiRequest client, five-tool catalog, SERVER_INFO and parse catch
(identical literals, reused), plus a `health` method and an
`available_methods` list that includes it. -/

/-- `Object.keys`-order method list of mcp/index.js. -/
def mcpIndexMethods : List String :=
  ["getModels", "connectMCPServer", "initialize", "tools/list", "tools/call",
   "tools/describe", "server/info", "health"]

/-- The `connectMCPServer` result of mcp/index.js (it adds `status` and
`timestamp` to the fields the main function returns). -/
def mcpIndexConnectResult (now : String) : JSValue :=
  .obj [("name", .str "dflow-mcp-server"), ("version", .str "1.0.0"),
        ("description",
          .str "Prediction Market Metadata API server for DFlow platform"),
        ("capabilities", serverCapabilities),
        ("tools", serverlessTools),
        ("connected", .bool true),
        ("server_url", .str "https://dflow.opensvm.com/api/mcp"),
        ("status", .str "connected"),
        ("timestamp", .str now)]

/-- The `health` result of mcp/index.js. -/
def mcpIndexHealthResult (now : String) : JSValue :=
  .obj [("status", .str "healthy"), ("timestamp", .str now),
        ("version", .str "1.0.0"),
        ("methods", .arr (mcpIndexMethods.map JSValue.str))]

/-- The method-not-found body of mcp/index.js: -32601 with the eight
recognized methods (including `health`) in `data.available_methods`. -/
def mcpIndexMethodNotFoundBody (id : JSValue) : JSValue :=
  rpcErrorBody id (-32601) (.str "Method not found")
    (some (.obj [("available_methods",
      .arr (mcpIndexMethods.map JSValue.str))]))

/-- The routed part of mcp/index.js for a parsed request; its tool switch
and `tools/describe` lookup are identical to the main Netlify function's
and are shared. -/
def mcpIndexCore (req : JSValue) (now : String)
    (oracle : RestCall → Except JSError JSValue) :
    Except JSError HttpResponse :=
  let rid := jsGet req "id"
  let method := jsGet req "method"
  if method.isStr "getModels" then
    .ok ⟨200, some (rpcResultBody rid getModelsResult)⟩
  else if method.isStr "connectMCPServer" then
    .ok ⟨200, some (rpcResultBody rid (mcpIndexConnectResult now))⟩
  else if method.isStr "initialize" then
    .ok ⟨200, some (rpcResultBody rid SERVER_INFO)⟩
  else if method.isStr "tools/list" then
    .ok ⟨200, some (rpcResultBody rid (.obj [("tools", serverlessTools)]))⟩
  else if method.isStr "tools/call" then
    let params := jsGet req "params"
    if params.nullish then
      .error (.jsError "TypeError"
        "Cannot destructure property of undefined or null")
    else
      let nameV := jsGet params "name"
      let toolArgs := normalizeArgs (jsGet params "arguments")
      .ok (netlifyToolCallResponse rid nameV toolArgs
        (toolCallOutcome (serverlessToolRoute nameV toolArgs)
          (jsToString nameV) oracle))
  else if method.isStr "tools/describe" then
    let params := jsGet req "params"
    if params.nullish then
      .error (.jsError "TypeError"
        "Cannot read properties of undefined or null")
    else
      .ok (netlifyDescribeResponse rid (jsGet params "name"))
  else if method.isStr "server/info" then
    .ok ⟨200, some (rpcResultBody rid SERVER_INFO)⟩
  else if method.isStr "health" then
    .ok ⟨200, some (rpcResultBody rid (mcpIndexHealthResult now))⟩
  else
    .ok ⟨200, some (mcpIndexMethodNotFoundBody rid)⟩

/-- The mcp/index.js handler: CORS preflight, POST-only check and the same
-32700 `id: null` catch body as the main Netlify function. -/
def mcpIndexHandler (httpMethod : String) (parsed : Except JSError JSValue)
    (now : String) (oracle : RestCall → Except JSError JSValue) :
    HttpResponse :=
  if httpMethod = "OPTIONS" then ⟨200, none⟩
  else if httpMethod ≠ "POST" then
    ⟨405, some (rpcErrorBody .null (-32600) (.str "Method not allowed") none)⟩
  else
    match parsed with
    | .error e => ⟨200, some (netlifyCatchBody e)⟩
    | .ok req =>
        match mcpIndexCore req now oracle with
        | .ok resp => resp
        | .error e => ⟨200, some (netlifyCatchBody e)⟩

/-! ## mcp-api.js Netlify handler

Requires `request.jsonrpc === '2.0'` and a truthy method before routing;
its `tools/call` uses the raw `arguments` value with no `|| \x7b\x7d`
fallback, so property access on absent arguments throws into the inner
catch; its outer catch answers both parse failures and mid-handling
exceptions with HTTP 500 and code -32603 — never -32700. -/

/-- The outer-catch body of mcp-api.js. -/
def mcpApiCatchBody (e : JSError) : JSValue :=
  .obj [("jsonrpc", .str "2.0"), ("id", .null),
        ("error", .obj [("code", .num (-32603)),
          ("message", .str "Internal error"),
          ("data", e.messageProp)])]

/-- The tool switch of mcp-api.js over the raw `args` value: the by-mint
and live-data cases read properties of `args`, which throws on a nullish
value (caught by the inner catch); `get_live_data` forwards `args` as
query parameters, unlike the other serverless variants. -/
def mcpApiToolOutcome (nameV args : JSValue)
    (oracle : RestCall → Except JSError JSValue) :
    Except JSError JSValue :=
  match nameV with
  | .str "get_events" => oracle (apiRequestCall "GET" "/api/v1/events" args)
  | .str "get_markets" => oracle (apiRequestCall "GET" "/api/v1/markets" args)
  | .str "get_trades" => oracle (apiRequestCall "GET" "/api/v1/trades" args)
  | .str "get_market_by_mint" =>
      if args.nullish then
        .error (.jsError "TypeError"
          "Cannot read properties of undefined or null")
      else
        oracle (apiRequestCall "GET"
          ("/api/v1/markets/by-mint/" ++ jsToString (jsGet args "mint"))
          .undefined)
  | .str "get_live_data" =>
      if args.nullish then
        .error (.jsError "TypeError"
          "Cannot read properties of undefined or null")
      else
        oracle (apiRequestCall "GET"
          (if (jsGet args "event_ticker").truthy then
            "/api/v1/events/live-data/" ++ jsToString (jsGet args "event_ticker")
          else if (jsGet args "market_ticker").truthy then
            "/api/v1/markets/live-data/" ++ jsToString (jsGet args "market_ticker")
          else "/api/v1/live-data")
          args)
  | _ => .error (.jsError "Error" ("Unknown tool: " ++ jsToString nameV))

/-- The method-not-found body of mcp-api.js: -32601 with its three
recognized methods in `data.available_methods`. -/
def mcpApiMethodNotFoundBody (id : JSValue) : JSValue :=
  rpcErrorBody id (-32601) (.str "Method not found")
    (some (.obj [("available_methods",
      .arr [.str "initialize", .str "tools/list", .str "tools/call"])]))

/-- The routed part of mcp-api.js for a parsed request. -/
def mcpApiCore (req : JSValue)
    (oracle : RestCall → Except JSError JSValue) :
    Except JSError HttpResponse :=
  let rid := jsGet req "id"
  if (jsGet req "jsonrpc").isStr "2.0" && (jsGet req "method").truthy then
    let method := jsGet req "method"
    if method.isStr "initialize" then
      .ok ⟨200, some (rpcResultBody rid SERVER_INFO)⟩
    else if method.isStr "tools/list" then
      .ok ⟨200, some (rpcResultBody rid (.obj [("tools", serverlessTools)]))⟩
    else if method.isStr "tools/call" then
      let params := jsGet req "params"
      if params.nullish then
        .error (.jsError "TypeError"
          "Cannot destructure property of undefined or null")
      else
        let nameV := jsGet params "name"
        let args := jsGet params "arguments"
        .ok (netlifyToolCallResponse rid nameV args
          (mcpApiToolOutcome nameV args oracle))
    else
      .ok ⟨200, some (mcpApiMethodNotFoundBody rid)⟩
  else
    .ok ⟨200, some (rpcErrorBody rid (-32600)
      (.str "Invalid request format") none)⟩

/-- The mcp-api.js handler: CORS preflight, POST-only check, and the
HTTP-500 -32603 catch for parse failures and thrown exceptions. -/
def mcpApiHandler (httpMethod : String) (parsed : Except JSError JSValue)
    (oracle : RestCall → Except JSError JSValue) : HttpResponse :=
  if httpMethod = "OPTIONS" then ⟨200, none⟩
  else if httpMethod ≠ "POST" then
    ⟨405, some (rpcErrorBody .null (-32600) (.str "Method not allowed") none)⟩
  else
    match parsed with
    | .error e => ⟨500, some (mcpApiCatchBody e)⟩
    | .ok req =>
        match mcpApiCore req oracle with
        | .ok resp => resp
        | .error e => ⟨500, some (mcpApiCatchBody e)⟩

/-! ## mcp-v2-bootstrap Netlify handler

Routes by request path rather than method: `/mcp/v2/bootstrap` answers a
bootstrap result whose id is `request.id || "bootstrap-response"`; any
truthy method on another `/mcp/v2/` path answers a success result; no
outbound call is ever made. -/

/-- The `/mcp/v2/` endpoint list both v2 handlers advertise. -/
def v2Endpoints : JSValue :=
  .arr [.str "/mcp/v2/bootstrap", .str "/mcp/v2/connect",
        .str "/mcp/v2/tools/list", .str "/mcp/v2/tools/call"]

/-- The bootstrap result payload of mcp-v2-bootstrap. -/
def v2BootstrapResult (now : String) : JSValue :=
  .obj [("name", .str "dflow-mcp-server"), ("version", .str "1.0.0"),
        ("description",
          .str "Prediction Market Metadata API server for DFlow platform"),
        ("protocolVersion", .str "2025-06-18"),
        ("capabilities", serverCapabilities),
        ("serverInfo", serverInfoInner),
        ("tools", serverlessTools),
        ("prompts", .arr []), ("resources", .arr []),
        ("connected", .bool true),
        ("server_url", .str "https://dflow.opensvm.com/mcp/v2"),
        ("status", .str "connected"),
        ("timestamp", .str now),
        ("transport", .str "http_post"),
        ("implementation", .str "netlify-functions-mcp-v2"),
        ("endpoints", .obj [
          ("bootstrap", .str "/mcp/v2/bootstrap"),
          ("connect", .str "/mcp/v2/connect"),
          ("tools_list", .str "/mcp/v2/tools/list"),
          ("tools_call", .str "/mcp/v2/tools/call")])]

/-- The bootstrap envelope: `id: request.id || "bootstrap-response"`, so a
falsy id (null, 0, empty string, absent) is replaced, not echoed. -/
def v2BootstrapBody (req : JSValue) (now : String) : JSValue :=
  .obj [("jsonrpc", .str "2.0"),
        ("id", if (jsGet req "id").truthy then jsGet req "id"
               else .str "bootstrap-response"),
        ("result", v2BootstrapResult now)]

/-- The method-not-found body of mcp-v2-bootstrap: -32601 whose `data`
lists endpoints, not method names. -/
def v2BootstrapNotFoundBody (id : JSValue) (requestPath : String) : JSValue :=
  rpcErrorBody id (-32601) (.str "Method not found")
    (some (.obj [("request_path", .str requestPath),
      ("available_endpoints", v2Endpoints),
      ("formats_supported", .arr [.str "mcp_v2"]),
      ("protocol_version", .str "2025-06-18")]))

/-- The status-400 parse-error body both v2 handlers build: -32700 with
`id: null` and the parse message as `data`. -/
def v2ParseErrorBody (e : JSError) : JSValue :=
  rpcErrorBody .null (-32700) (.str "Parse error") (some e.messageProp)

/-- The mcp-v2-bootstrap handler. Its routing never throws, so its
HTTP-500 internal-error catch is unreachable and not modelled. -/
def v2BootstrapHandler (httpMethod requestPath : String)
    (parsed : Except JSError JSValue) (now : String) : HttpResponse :=
  if httpMethod = "OPTIONS" then ⟨200, none⟩
  else if httpMethod ≠ "POST" then
    ⟨405, some (rpcErrorBody .null (-32600) (.str "Method not allowed") none)⟩
  else
    match parsed with
    | .error e => ⟨400, some (v2ParseErrorBody e)⟩
    | .ok req =>
        if requestPath = "/mcp/v2/bootstrap" then
          ⟨200, some (v2BootstrapBody req now)⟩
        else if (jsGet req "method").truthy
            && "/mcp/v2/".data.isPrefixOf requestPath.data then
          ⟨200, some (rpcResultBody (jsGet req "id")
            (.obj [("status", .str "mcp_v2_supported"),
              ("method", jsGet req "method"),
              ("path", .str requestPath),
              ("available_endpoints", v2Endpoints),
              ("tools", serverlessTools)]))⟩
        else
          ⟨200, some (v2BootstrapNotFoundBody (jsGet req "id") requestPath)⟩

/-! ## mcp-v2-sse Netlify handler (POST branch)

Its `tools/call` handler builds a `createSSEResponse` object — a
`\x7b statusCode, headers, body \x7d` value whose `body` is SSE-framed
text — and the main handler then serializes that whole object as the JSON
response body, so tool responses are not JSON-RPC envelopes and carry no
`id`. The GET `/mcp/v2/events` stream is outside the modelled POST
surface. Its `tools/call` destructures `request.params` before its inner
try, so a nullish `params` throws into the HTTP-500 -32603 outer catch. -/

/-- SSE capability block of the mcp-v2-sse SERVER_INFO. -/
def sseServerCapabilities : JSValue :=
  .obj [("tools", .obj [("listChanged", .bool false)]),
        ("prompts", .obj []), ("resources", .obj []),
        ("sse", .bool true)]

/-- `formatSSEEvent`: optional id and event lines, then the JSON-encoded
data line, blank-line terminated. -/
def formatSSEEvent (etype : String) (data : JSValue) (rid : String) :
    String :=
  (if rid ≠ "" then "id: " ++ rid ++ "\n" else "")
    ++ (if etype ≠ "" then "event: " ++ etype ++ "\n" else "")
    ++ "data: " ++ jsonStringify data ++ "\n\n"

/-- The SSE text of a list of (event type, data) pairs under one id. -/
def createSSEBody (events : List (String × JSValue)) (rid : String) :
    String :=
  String.join (events.map fun ev => formatSSEEvent ev.1 ev.2 rid)

/-- `createSSEResponse` as the object the main handler then JSON-encodes:
statusCode, SSE headers, and the framed text as `body`. -/
def createSSEResponseObj (events : List (String × JSValue)) (rid : String) :
    JSValue :=
  .obj [("statusCode", .num 200),
        ("headers", .obj [
          ("Access-Control-Allow-Origin", .str "*"),
          ("Access-Control-Allow-Methods", .str "GET, POST, OPTIONS"),
          ("Access-Control-Allow-Headers",
            .str "Content-Type, Authorization, x-api-key, Last-Event-ID"),
          ("Content-Type", .str "text/event-stream"),
          ("Cache-Control", .str "no-cache"),
          ("Connection", .str "keep-alive"),
          ("X-Accel-Buffering", .str "no")]),
        ("body", .str (createSSEBody events rid))]

/-- The `tools/call` response object of mcp-v2-sse: three SSE events
(started, result-or-error, completed) under a timestamped id. `nowMs`
stands for `Date.now()` at the instant the handler runs. -/
def v2SseToolCallBody (toolName toolArgs : JSValue)
    (outcome : Except JSError JSValue) (nowMs : String) : JSValue :=
  match outcome with
  | .ok v =>
      createSSEResponseObj
        [("tool_started", .obj [("tool", toolName),
            ("arguments", toolArgs)]),
         ("tool_result", .obj [("tool", toolName), ("result", v),
            ("content", .arr [.obj [("type", .str "text"),
              ("text", .str (jsonStringifyPretty 0 v))]])]),
         ("tool_completed", .obj [("tool", toolName),
            ("success", .bool true)])]
        ("tool-" ++ nowMs)
  | .error e =>
      createSSEResponseObj
        [("tool_started", .obj [("tool", toolName),
            ("arguments", toolArgs)]),
         ("tool_error", .obj [("tool", toolName),
            ("error", e.messageProp), ("arguments", toolArgs)]),
         ("tool_completed", .obj [("tool", toolName),
            ("success", .bool false)])]
        ("tool-error-" ++ nowMs)

/-- The bootstrap result payload of mcp-v2-sse (SSE capabilities and
endpoints included). -/
def v2SseBootstrapResult (now : String) : JSValue :=
  .obj [("name", .str "dflow-mcp-server"), ("version", .str "1.0.0"),
        ("description",
          .str "Prediction Market Metadata API server for DFlow platform with SSE support"),
        ("protocolVersion", .str "2025-06-18"),
        ("capabilities", sseServerCapabilities),
        ("serverInfo", .obj [("name", .str "dflow-mcp-server"),
          ("version", .str "1.0.0"),
          ("description",
            .str "Prediction Market Metadata API server for DFlow platform with SSE support")]),
        ("tools", serverlessTools),
        ("prompts", .arr []), ("resources", .arr []),
        ("connected", .bool true),
        ("server_url", .str "https://dflow.opensvm.com/mcp/v2"),
        ("status", .str "connected"),
        ("timestamp", .str now),
        ("transport", .str "http_post_with_sse"),
        ("implementation", .str "netlify-functions-mcp-v2-sse"),
        ("sse", .obj [("supported", .bool true),
          ("endpoint", .str "/mcp/v2/events"),
          ("keep_alive", .bool true),
          ("retry_time", .num 3000)]),
        ("endpoints", .obj [
          ("bootstrap", .str "/mcp/v2/bootstrap"),
          ("events", .str "/mcp/v2/events"),
          ("tools_list", .str "/mcp/v2/tools/list"),
          ("tools_call", .str "/mcp/v2/tools/call")])]

/-- The method-not-found body of mcp-v2-sse: -32601 whose
`data.available_methods` lists its three methods. -/
def v2SseNotFoundBody (id : JSValue) : JSValue :=
  rpcErrorBody id (-32601) (.str "Method not found")
    (some (.obj [("available_methods",
        .arr [.str "bootstrap", .str "tools/list", .str "tools/call"]),
      ("sse_endpoint", .str "/mcp/v2/events"),
      ("format", .str "mcp_v2_sse")]))

/-- The HTTP-500 outer-catch body of mcp-v2-sse. -/
def v2SseCatchBody (e : JSError) : JSValue :=
  .obj [("jsonrpc", .str "2.0"), ("id", .null),
        ("error", .obj [("code", .num (-32603)),
          ("message", .str "Internal error"),
          ("data", e.messageProp)])]

/-- The routed part of mcp-v2-sse for a parsed POST request; its tool
switch is the same five-case literal as the other serverless functions
and is shared. -/
def v2SseCore (req : JSValue) (requestPath : String) (now nowMs : String)
    (oracle : RestCall → Except JSError JSValue) :
    Except JSError HttpResponse :=
  if requestPath = "/mcp/v2/bootstrap" then
    .ok ⟨200, some (.obj [("jsonrpc", .str "2.0"),
      ("id", if (jsGet req "id").truthy then jsGet req "id"
             else .str "bootstrap-response"),
      ("result", v2SseBootstrapResult now)])⟩
  else if (jsGet req "method").isStr "tools/list" then
    .ok ⟨200, some (rpcResultBody (jsGet req "id")
      (.obj [("tools", serverlessTools),
        ("transport", .str "sse_supported"),
        ("streaming", .bool true)]))⟩
  else if (jsGet req "method").isStr "tools/call" then
    let params := jsGet req "params"
    if params.nullish then
      .error (.jsError "TypeError"
        "Cannot destructure property of undefined or null")
    else
      let nameV := jsGet params "name"
      let toolArgs := normalizeArgs (jsGet params "arguments")
      .ok ⟨200, some (v2SseToolCallBody nameV toolArgs
        (toolCallOutcome (serverlessToolRoute nameV toolArgs)
          (jsToString nameV) oracle) nowMs)⟩
  else
    .ok ⟨200, some (v2SseNotFoundBody (jsGet req "id"))⟩

/-- The mcp-v2-sse POST handler: parse (status-400 -32700 on failure,
the same body literal as mcp-v2-bootstrap), route, and the HTTP-500
-32603 catch for exceptions thrown while handling. -/
def v2SseHandlerPost (requestPath : String)
    (parsed : Except JSError JSValue) (now nowMs : String)
    (oracle : RestCall → Except JSError JSValue) : HttpResponse :=
  match parsed with
  | .error e => ⟨400, some (v2ParseErrorBody e)⟩
  | .ok req =>
      match v2SseCore req requestPath now nowMs oracle with
      | .ok resp => resp
      | .error e => ⟨500, some (v2SseCatchBody e)⟩

/-! ## Bun web server (POST / JSON-RPC branch)

The Bun web server registers a three-tool MCP server and serves a JSON-RPC
dialect over POST `/` that recognizes only `tools.list` and `tools.call`;
`tools.call` delegates to the MCP SDK's `server.request`, modelled as an
oracle over the extracted name and arguments. Its GET branches (HTML page,
health, 404) are outside the modelled surface. Its parse catch answers
with the same status-400 -32700 `id: null` literal as the Deno server. -/

/-- The Bun web `tools.call` response from the `server.request` outcome:
the resolved value is relayed verbatim as `result` (no content wrapping at
this layer), a rejection becomes -32603 with the guarded message. -/
def bunWebToolCallResponse (rid : JSValue)
    (outcome : Except JSError JSValue) : HttpResponse :=
  match outcome with
  | .ok v => ⟨200, some (rpcResultBody rid v)⟩
  | .error e =>
      ⟨200, some (rpcErrorBody rid (-32603) (.str e.messageOf) none)⟩

/-- The routed part of the Bun web POST branch: reading
`body.params.name` throws on a nullish `params` into the parse catch. -/
def bunWebCore (body : JSValue)
    (sdk : JSValue → JSValue → Except JSError JSValue) :
    Except JSError HttpResponse :=
  let rid := jsGet body "id"
  let method := jsGet body "method"
  if method.isStr "tools.list" then
    .ok ⟨200, some (rpcResultBody rid (.obj [("tools", apiMcpTools)]))⟩
  else if method.isStr "tools.call" then
    let params := jsGet body "params"
    if params.nullish then
      .error (.jsError "TypeError"
        "Cannot read properties of undefined or null")
    else
      .ok (bunWebToolCallResponse rid
        (sdk (jsGet params "name") (jsGet params "arguments")))
  else
    .ok ⟨200, some (rpcErrorBody rid (-32601) (.str "Method not found") none)⟩

/-- The Bun web server's POST / handler. -/
def bunWebHandlerPost (parsed : Except JSError JSValue)
    (sdk : JSValue → JSValue → Except JSError JSValue) : HttpResponse :=
  match parsed with
  | .error _ => denoParseErrorResponse
  | .ok body =>
      match bunWebCore body sdk with
      | .ok resp => resp
      | .error _ => denoParseErrorResponse

/-! ## Shared lemmas -/

/-- The oracle that resolves every outbound call with JSON `null`; used to
instantiate witnesses. -/
def okNullOracle : RestCall → Except JSError JSValue := fun _ => .ok .null

/-- The fold of `DFlowAPIClient.get` over the entries equals: keep exactly
the non-nullish entries, in order, and coerce each value with `String`. -/
theorem dflowSerializeEntries_aux (l : List (String × JSValue))
    (acc : List (String × String)) :
    l.foldl
      (fun acc kv =>
        if kv.2.nullish then acc else acc ++ [(kv.1, jsToString kv.2)]) acc
      = acc ++ (l.filter fun kv => !kv.2.nullish).map
          (fun kv => (kv.1, jsToString kv.2)) := by
  induction l generalizing acc with
  | nil => simp
  | cons kv rest ih =>
      by_cases h : kv.2.nullish <;>
        simp [List.foldl_cons, List.filter_cons, h, ih]

/-- `dflowSerializeEntries` is the nullish-filtering, order-preserving
serialization. -/
theorem dflowSerializeEntries_eq (l : List (String × JSValue)) :
    dflowSerializeEntries l
      = (l.filter fun kv => !kv.2.nullish).map
          (fun kv => (kv.1, jsToString kv.2)) := by
  simpa using dflowSerializeEntries_aux l []

/-- A name routed by the stdio dispatch switch is one of its 23 cases. -/
theorem routeTool_mem_of_isSome (name : String) (args : JSValue)
    (h : (routeTool name args).isSome) : name ∈ stdioToolNames := by
  unfold routeTool at h
  split at h <;> simp_all [stdioToolNames]

/-- A name outside the 23 switch cases falls to the `default:` branch. -/
theorem routeTool_eq_none (name : String) (args : JSValue)
    (h : name ∉ stdioToolNames) : routeTool name args = none := by
  cases hr : routeTool name args with
  | none => rfl
  | some c =>
      exact absurd (routeTool_mem_of_isSome name args (by simp [hr])) h

/-! ## Claims -/

/-- C1 counterexample: the claim asserts that every dispatcher variant that
serializes GET parameters omits entries with undefined/null values, but the
serverless `apiRequest` variant (Deno server and both Netlify functions)
serializes every entry: at the concrete mapping `\x7b limit: 5, cursor:
null \x7d` it emits `cursor=null` instead of omitting the entry. -/
theorem c1_counterexample :
    apiRequestQuery "GET" (.obj [("limit", .num 5), ("cursor", .null)])
        = [("limit", "5"), ("cursor", "null")]
      ∧ apiRequestQuery "GET" (.obj [("limit", .num 5), ("cursor", .null)])
        ≠ [("limit", "5")] := by
  exact ⟨rfl, by decide⟩

/-- C1 (amended): the `DFlowAPIClient.get` variant (the stdio/Smithery
servers) serializes exactly the entries whose value is neither undefined
nor null, in the mapping's insertion order, so `get_events(\x7b limit: 5,
cursor: undefined \x7d)` produces a query containing only `limit=5`; the
serverless `apiRequest` variant serializes every entry, rendering undefined
and null values as the strings "undefined" and "null". -/
theorem c1_get_params_serialization (entries : List (String × JSValue)) :
    dflowSerializeEntries entries
        = (entries.filter fun kv => !kv.2.nullish).map
            (fun kv => (kv.1, jsToString kv.2))
      ∧ routeTool "get_events"
          (normalizeArgs (.obj [("limit", .num 5), ("cursor", .undefined)]))
        = some { method := "GET", path := "/api/v1/events",
                 query := [("limit", "5")], body := none }
      ∧ renderQuery [("limit", "5")] = "?limit=5"
      ∧ apiRequestQuery "GET" (.obj [("limit", .num 5), ("cursor", .null)])
        = [("limit", "5"), ("cursor", "null")]
      ∧ apiRequestQuery "GET" (.obj [("limit", .num 5), ("cursor", .undefined)])
        = [("limit", "5"), ("cursor", "undefined")] := by
  exact ⟨dflowSerializeEntries_eq entries, rfl, rfl, rfl, rfl⟩

/-- C3: `DFlowAPIClient.request` is time-bounded by the configured timeout
(default 30000 ms): when the underlying fetch is cancelled by the abort
signal (it rejects with an `AbortError`), the caller receives the
`'Request timeout'` error rather than the abort error; any other rejection
— a non-abort `Error` or a thrown non-`Error` value — propagates
unchanged. -/
theorem c3_timeout_surfaced :
    DEFAULT_TIMEOUT = 30000
      ∧ (∀ msg, clientRequest (.rejected (.jsError "AbortError" msg))
          = .error (.jsError "Error" "Request timeout"))
      ∧ (∀ n msg, n ≠ "AbortError" →
          clientRequest (.rejected (.jsError n msg))
            = .error (.jsError n msg))
      ∧ (∀ v, clientRequest (.rejected (.jsThrow v))
          = .error (.jsThrow v)) := by
  refine ⟨rfl, fun msg => ?_, fun n msg h => ?_, fun v => rfl⟩
  · simp [clientRequest, abortToTimeout]
  · simp [clientRequest, abortToTimeout, h]

/-- C3 witness: a rejection named `TypeError` (a network failure) is not
converted; it reaches the caller unchanged. -/
theorem c3_timeout_surfaced_witness :
    ("TypeError" ≠ "AbortError")
      ∧ clientRequest (.rejected (.jsError "TypeError" "fetch failed"))
        = .error (.jsError "TypeError" "fetch failed") :=
  ⟨by decide, c3_timeout_surfaced.2.2.1 "TypeError" "fetch failed" (by decide)⟩

/-- C5: a `tools/call` for `get_markets_batch` with
`\x7b tickers: ["A","B"] \x7d` routes to a single
`POST /api/v1/markets/batch` whose JSON body is exactly
`\x7b"tickers":["A","B"]\x7d`; and no `dflowPost` call ever carries query
parameters. -/
theorem c5_markets_batch_post :
    routeTool "get_markets_batch"
        (normalizeArgs (.obj [("tickers", .arr [.str "A", .str "B"])]))
      = some { method := "POST", path := "/api/v1/markets/batch",
               query := [],
               body := some "\x7b\"tickers\":[\"A\",\"B\"]\x7d" }
      ∧ (∀ (path : String) (data : JSValue),
          (dflowPost path data).query = []
            ∧ (dflowPost path data).method = "POST") := by
  exact ⟨rfl, fun path data => ⟨rfl, rfl⟩⟩

/-- The `tools/call` arguments of the C4 scenario. -/
def c4Args : JSValue :=
  .obj [("event_id", .str "US-PRESIDENT-2024"),
        ("withNestedMarkets", .bool true)]

/-- The single outbound call the C4 scenario routes to. -/
def c4Call : RestCall :=
  { method := "GET", path := "/api/v1/event/US-PRESIDENT-2024",
    query := [("withNestedMarkets", "true")], body := none }

/-- C4: `tools/call` with `\x7b name: "get_event", arguments: \x7b event_id:
"US-PRESIDENT-2024", withNestedMarkets: true \x7d \x7d` routes to exactly
one outbound call, `GET
\x7bbase\x7d/api/v1/event/US-PRESIDENT-2024?withNestedMarkets=true`, and on
upstream success the JSON body comes back as exactly one text content
block. -/
theorem c4_get_event_scenario
    (oracle : RestCall → Except JSError JSValue) (v : JSValue)
    (hok : oracle c4Call = .ok v) :
    routeTool "get_event" (normalizeArgs c4Args) = some c4Call
      ∧ c4Call.url BASE_URL
        = "https://prediction-markets-api.dflow.net/api/v1/event/US-PRESIDENT-2024?withNestedMarkets=true"
      ∧ handleCallTool "get_event" c4Args oracle
        = { content := [.text (jsonStringifyPretty 0 v)], isError := none } := by
  refine ⟨rfl, by decide, ?_⟩
  have hstep : handleCallTool "get_event" c4Args oracle
      = (match oracle c4Call with
        | .ok v => { content := [.text (jsonStringifyPretty 0 v)],
                     isError := none }
        | .error e => callToolErrorResult "get_event" e) := rfl
  rw [hstep, hok]

/-- C4 witness: the scenario evaluated against an oracle answering every
call with the empty JSON object. -/
theorem c4_get_event_scenario_witness :
    (fun (_ : RestCall) => (Except.ok (JSValue.obj []) : Except JSError JSValue)) c4Call
        = Except.ok (JSValue.obj [])
      ∧ handleCallTool "get_event" c4Args
          (fun _ => Except.ok (JSValue.obj []))
        = { content := [.text (jsonStringifyPretty 0 (JSValue.obj []))],
            isError := none } :=
  ⟨rfl,
    (c4_get_event_scenario (fun _ => Except.ok (JSValue.obj []))
      (JSValue.obj []) rfl).2.2⟩

/-- C2: a `tools/call` whose tool name is outside the dispatch mapping
returns an error result in every variant — the stdio server returns a
single error-flagged content block naming the tool, the Netlify JSON-RPC
function a -32603 error naming it, the Deno server likewise, and the
claude-desktop function a `success: false` body naming it — never an
uncaught exception (the handlers are total functions) and never a
successful payload. -/
theorem c2_unknown_tool_error
    (name : String) (rawArgs : JSValue)
    (oracleA oracleB oracleC oracleD : RestCall → Except JSError JSValue)
    (idV nameV argsV : JSValue) (now : String)
    (hstdio : name ∉ stdioToolNames)
    (hserver : serverlessToolRoute nameV (normalizeArgs argsV) = none)
    (hdeno : denoToolRoute nameV (normalizeArgs argsV) = none) :
    handleCallTool name rawArgs oracleA
        = { content :=
              [.text ("Error calling " ++ name ++ ": "
                ++ ("Unknown tool: " ++ name))],
            isError := some true }
      ∧ netlifyHandler "POST"
          (.ok (.obj [("id", idV), ("method", .str "tools/call"),
            ("params", .obj [("name", nameV), ("arguments", argsV)])]))
          oracleB
        = ⟨200, some (rpcErrorBody idV (-32603)
            (.str ("Unknown tool: " ++ jsToString nameV))
            (some (.obj [("tool", nameV),
              ("arguments", normalizeArgs argsV)])))⟩
      ∧ denoHandlerPost
          (.ok (.obj [("id", idV), ("method", .str "tools.call"),
            ("params", .obj [("name", nameV), ("arguments", argsV)])]))
          oracleC
        = ⟨200, some (rpcErrorBody idV (-32603)
            (.str ("Unknown tool: " ++ jsToString nameV)) none)⟩
      ∧ claudeHandler "POST"
          (.ok (.obj [("args", .arr [nameV, argsV]), ("id", idV),
            ("method", .str "tools/call"), ("type", .str "rpc")]))
          now oracleD
        = ⟨200, some (.obj [("success", .bool false),
            ("error", .str ("Unknown tool: " ++ jsToString nameV)),
            ("data", .obj [("tool", nameV),
              ("arguments", normalizeArgs argsV)])])⟩ := by
  refine ⟨?_, ?_, ?_, ?_⟩
  · unfold handleCallTool
    rw [routeTool_eq_none name (normalizeArgs rawArgs) hstdio]
    rfl
  · have hstep : netlifyHandler "POST"
        (.ok (.obj [("id", idV), ("method", .str "tools/call"),
          ("params", .obj [("name", nameV), ("arguments", argsV)])]))
        oracleB
        = netlifyToolCallResponse idV nameV (normalizeArgs argsV)
            (toolCallOutcome (serverlessToolRoute nameV (normalizeArgs argsV))
              (jsToString nameV) oracleB) := rfl
    rw [hstep, hserver]
    rfl
  · have hstep : denoHandlerPost
        (.ok (.obj [("id", idV), ("method", .str "tools.call"),
          ("params", .obj [("name", nameV), ("arguments", argsV)])]))
        oracleC
        = denoToolCallResponse idV
            (toolCallOutcome (denoToolRoute nameV (normalizeArgs argsV))
              (jsToString nameV) oracleC) := rfl
    rw [hstep, hdeno]
    rfl
  · have hstep : claudeHandler "POST"
        (.ok (.obj [("args", .arr [nameV, argsV]), ("id", idV),
          ("method", .str "tools/call"), ("type", .str "rpc")]))
        now oracleD
        = ⟨200, some (claudeToolCallBody nameV (normalizeArgs argsV)
            (toolCallOutcome (serverlessToolRoute nameV (normalizeArgs argsV))
              (jsToString nameV) oracleD))⟩ := rfl
    rw [hstep, hserver]
    rfl

/-- C2 witness: the unknown tool name "frobnicate" evaluated through all
four variants. -/
theorem c2_unknown_tool_error_witness :
    ("frobnicate" ∉ stdioToolNames)
      ∧ serverlessToolRoute (.str "frobnicate")
          (normalizeArgs (.obj [])) = none
      ∧ denoToolRoute (.str "frobnicate") (normalizeArgs (.obj [])) = none
      ∧ handleCallTool "frobnicate" (.obj []) okNullOracle
        = { content :=
              [.text "Error calling frobnicate: Unknown tool: frobnicate"],
            isError := some true } :=
  ⟨by decide, rfl, rfl,
    (c2_unknown_tool_error "frobnicate" (.obj []) okNullOracle okNullOracle
      okNullOracle okNullOracle (.num 1) (.str "frobnicate") (.obj []) "T0"
      (by decide) rfl rfl).1⟩

/-- C10: the stdio tool-call handler is total at its interface: for every
tool name, every raw arguments value (a missing field included) and every
upstream outcome (any JSON value, any thrown error, non-`Error` throws
included), it returns exactly one text content block, with `isError`
present and `true` exactly when dispatch failed (unknown tool or upstream
error), and absent on success; being a total function of its inputs, it
propagates no exception. -/
theorem c10_handler_total (name : String) (rawArgs : JSValue)
    (oracle : RestCall → Except JSError JSValue) :
    (∃ s, (handleCallTool name rawArgs oracle).content = [.text s])
      ∧ ((handleCallTool name rawArgs oracle).isError = none
          ∨ (handleCallTool name rawArgs oracle).isError = some true)
      ∧ ((handleCallTool name rawArgs oracle).isError = some true
          ↔ ¬ ∃ c v, routeTool name (normalizeArgs rawArgs) = some c
              ∧ oracle c = .ok v) := by
  cases hr : routeTool name (normalizeArgs rawArgs) with
  | none =>
      have hH : handleCallTool name rawArgs oracle
          = callToolErrorResult name
              (.jsError "McpError" ("Unknown tool: " ++ name)) := by
        unfold handleCallTool
        rw [hr]
      rw [hH]
      refine ⟨⟨_, rfl⟩, Or.inr rfl, fun _ => ?_, fun _ => rfl⟩
      rintro ⟨c, v, hc, hv⟩
      exact Option.noConfusion hc
  | some call =>
      have hH : handleCallTool name rawArgs oracle
          = match oracle call with
            | .ok v => { content := [.text (jsonStringifyPretty 0 v)],
                         isError := none }
            | .error e => callToolErrorResult name e := by
        unfold handleCallTool
        rw [hr]
      rw [hH]
      cases ho : oracle call with
      | ok v =>
          refine ⟨⟨_, rfl⟩, Or.inl rfl, fun h => ?_, fun h => ?_⟩
          · exact Option.noConfusion h
          · exact absurd ⟨call, v, rfl, ho⟩ h
      | error e =>
          refine ⟨⟨_, rfl⟩, Or.inr rfl, fun _ => ?_, fun _ => rfl⟩
          rintro ⟨c, v2, hc, hv⟩
          obtain rfl : call = c := by injection hc
          rw [ho] at hv
          exact Except.noConfusion hv

/-- C6 (amended): seven of the nine HTTP transport variants answer a body
that fails to parse as JSON with a JSON-RPC envelope carrying code -32700
and `id: null` — the Deno server, the main Netlify JSON-RPC function,
api-mcp.js, mcp/index.js, mcp-v2-bootstrap, mcp-v2-sse and the Bun web
server — and the failure is fatal only to that request (each request is an
independent handler invocation). Two variants deviate: the claude-desktop
function answers HTTP 400 with `\x7b success: false, error: 'Invalid JSON
format' \x7d` and no JSON-RPC envelope, and mcp-api.js answers HTTP 500
with code -32603 'Internal error' (id null but never -32700). -/
theorem c6_parse_error_envelope (e : JSError)
    (oA oB oC oD oE oF : RestCall → Except JSError JSValue)
    (sdk : JSValue → JSValue → Except JSError JSValue)
    (now nowMs requestPath : String) :
    (denoHandlerPost (.error e) oA).status = 400
      ∧ (denoHandlerPost (.error e) oA).body.map
          (fun b => (jsGet b "id", jsGet (jsGet b "error") "code"))
        = some (.null, .num (-32700))
      ∧ (netlifyHandler "POST" (.error e) oB).body.map
          (fun b => (jsGet b "id", jsGet (jsGet b "error") "code"))
        = some (.null, .num (-32700))
      ∧ (apiMcpHandler "POST" (.error e) oC).status = 400
      ∧ (apiMcpHandler "POST" (.error e) oC).body.map
          (fun b => (jsGet b "id", jsGet (jsGet b "error") "code"))
        = some (.null, .num (-32700))
      ∧ (mcpIndexHandler "POST" (.error e) now oD).body.map
          (fun b => (jsGet b "id", jsGet (jsGet b "error") "code"))
        = some (.null, .num (-32700))
      ∧ (v2BootstrapHandler "POST" requestPath (.error e) now).status = 400
      ∧ (v2BootstrapHandler "POST" requestPath (.error e) now).body.map
          (fun b => (jsGet b "id", jsGet (jsGet b "error") "code"))
        = some (.null, .num (-32700))
      ∧ (v2SseHandlerPost requestPath (.error e) now nowMs oE).status = 400
      ∧ (v2SseHandlerPost requestPath (.error e) now nowMs oE).body.map
          (fun b => (jsGet b "id", jsGet (jsGet b "error") "code"))
        = some (.null, .num (-32700))
      ∧ (bunWebHandlerPost (.error e) sdk).status = 400
      ∧ (bunWebHandlerPost (.error e) sdk).body.map
          (fun b => (jsGet b "id", jsGet (jsGet b "error") "code"))
        = some (.null, .num (-32700))
      ∧ (mcpApiHandler "POST" (.error e) oF).status = 500
      ∧ (mcpApiHandler "POST" (.error e) oF).body.map
          (fun b => (jsGet b "id", jsGet (jsGet b "error") "code"))
        = some (.null, .num (-32603)) :=
  ⟨rfl, rfl, rfl, rfl, rfl, rfl, rfl, rfl, rfl, rfl, rfl, rfl, rfl, rfl⟩

/-- C6 counterexample: the claim covers every HTTP transport variant, but
the claude-desktop Netlify function answers a malformed body with
`\x7b success: false, error: 'Invalid JSON format' \x7d`: no `jsonrpc`
field, no `error.code` of -32700, and no `id: null`. -/
theorem c6_counterexample :
    claudeHandler "POST" (.error (.jsError "SyntaxError" "Unexpected token"))
        "T0" okNullOracle
      = ⟨400, some (.obj [("success", .bool false),
          ("error", .str "Invalid JSON format")])⟩
    ∧ jsGet (.obj [("success", .bool false),
        ("error", .str "Invalid JSON format")]) "jsonrpc" = JSValue.undefined
    ∧ jsGet (jsGet (.obj [("success", .bool false),
        ("error", .str "Invalid JSON format")]) "error") "code" = JSValue.undefined
    ∧ jsGet (.obj [("success", .bool false),
        ("error", .str "Invalid JSON format")]) "id" ≠ JSValue.null := by
  refine ⟨rfl, rfl, rfl, fun h => ?_⟩
  exact JSValue.noConfusion h

/-- The seven method spellings the Netlify JSON-RPC handler recognizes,
as the if-chain tests them. -/
def netlifyRecognizedMethod (m : JSValue) : Bool :=
  m.isStr "getModels" || m.isStr "connectMCPServer" || m.isStr "initialize"
    || m.isStr "tools/list" || m.isStr "tools/call"
    || m.isStr "tools/describe" || m.isStr "server/info"

/-- The eight method spellings mcp/index.js recognizes, as its if-chain
tests them. -/
def mcpIndexRecognizedMethod (m : JSValue) : Bool :=
  m.isStr "getModels" || m.isStr "connectMCPServer" || m.isStr "initialize"
    || m.isStr "tools/list" || m.isStr "tools/call"
    || m.isStr "tools/describe" || m.isStr "server/info" || m.isStr "health"

/-- The three methods the mcp-api.js switch recognizes. -/
def mcpApiKnownMethod (m : JSValue) : Bool :=
  m.isStr "initialize" || m.isStr "tools/list" || m.isStr "tools/call"

/-- C7 (amended): the variants that answer an unrecognized method with a
-32601 error whose `data.available_methods` lists the recognized method
names are the main Netlify JSON-RPC function, mcp/index.js (whose list
includes `health`), mcp-api.js (for well-formed `jsonrpc: "2.0"` requests)
and mcp-v2-sse; the Deno server, api-mcp.js and the Bun web server answer
-32601 with only a message and no `data` field; mcp-v2-bootstrap answers
any named method on another `/mcp/v2/` path with a success result rather
than an error; and the claude-desktop function answers with its own
`success: false` object that is not a JSON-RPC error at all. -/
theorem c7_method_not_found (req req2 req3 reqS : JSValue)
    (requestPath : String)
    (oA oB oC : RestCall → Except JSError JSValue)
    (sdk : JSValue → JSValue → Except JSError JSValue)
    (now nowMs : String)
    (h : netlifyRecognizedMethod (jsGet req "method") = false)
    (h2 : mcpIndexRecognizedMethod (jsGet req2 "method") = false)
    (h3a : (jsGet req3 "jsonrpc").isStr "2.0" = true)
    (h3b : (jsGet req3 "method").truthy = true)
    (h3c : mcpApiKnownMethod (jsGet req3 "method") = false)
    (hSp : requestPath ≠ "/mcp/v2/bootstrap")
    (hS1 : (jsGet reqS "method").isStr "tools/list" = false)
    (hS2 : (jsGet reqS "method").isStr "tools/call" = false) :
    netlifyHandler "POST" (.ok req) oA
      = ⟨200, some (netlifyMethodNotFoundBody (jsGet req "id"))⟩
    ∧ jsGet (jsGet (netlifyMethodNotFoundBody (jsGet req "id")) "error") "code"
      = .num (-32601)
    ∧ jsGet (jsGet (jsGet (netlifyMethodNotFoundBody (jsGet req "id")) "error")
        "data") "available_methods"
      = .arr [.str "getModels", .str "connectMCPServer", .str "initialize",
              .str "tools/list", .str "tools/call", .str "tools/describe",
              .str "server/info"]
    ∧ mcpIndexHandler "POST" (.ok req2) now oB
      = ⟨200, some (mcpIndexMethodNotFoundBody (jsGet req2 "id"))⟩
    ∧ jsGet (jsGet (jsGet (mcpIndexMethodNotFoundBody (jsGet req2 "id"))
        "error") "data") "available_methods"
      = .arr (mcpIndexMethods.map JSValue.str)
    ∧ mcpApiHandler "POST" (.ok req3) oC
      = ⟨200, some (mcpApiMethodNotFoundBody (jsGet req3 "id"))⟩
    ∧ jsGet (jsGet (jsGet (mcpApiMethodNotFoundBody (jsGet req3 "id"))
        "error") "data") "available_methods"
      = .arr [.str "initialize", .str "tools/list", .str "tools/call"]
    ∧ v2SseHandlerPost requestPath (.ok reqS) now nowMs okNullOracle
      = ⟨200, some (v2SseNotFoundBody (jsGet reqS "id"))⟩
    ∧ jsGet (jsGet (jsGet (v2SseNotFoundBody (jsGet reqS "id")) "error")
        "data") "available_methods"
      = .arr [.str "bootstrap", .str "tools/list", .str "tools/call"]
    ∧ apiMcpHandler "POST"
        (.ok (.obj [("id", .num 3), ("method", .str "foo/bar")])) okNullOracle
      = ⟨200, some (rpcErrorBody (.num 3) (-32601)
          (.str "Method not found") none)⟩
    ∧ jsGet (jsGet (rpcErrorBody (.num 3) (-32601)
        (.str "Method not found") none) "error") "data" = JSValue.undefined
    ∧ bunWebHandlerPost
        (.ok (.obj [("id", .num 3), ("method", .str "foo/bar")])) sdk
      = ⟨200, some (rpcErrorBody (.num 3) (-32601)
          (.str "Method not found") none)⟩
    ∧ v2BootstrapHandler "POST" "/mcp/v2/tools/call"
        (.ok (.obj [("id", .num 4), ("method", .str "foo/bar")])) now
      = ⟨200, some (rpcResultBody (.num 4)
          (.obj [("status", .str "mcp_v2_supported"),
            ("method", .str "foo/bar"),
            ("path", .str "/mcp/v2/tools/call"),
            ("available_endpoints", v2Endpoints),
            ("tools", serverlessTools)]))⟩
    ∧ claudeHandler "POST"
        (.ok (.obj [("args", .arr [JSValue.null]), ("id", .num 5),
          ("method", .str "foo/bar"), ("type", .str "rpc")])) now okNullOracle
      = ⟨200, some (claudeMethodNotFoundBody
          (.obj [("args", .arr [JSValue.null]), ("id", .num 5),
            ("method", .str "foo/bar"), ("type", .str "rpc")]))⟩ := by
  refine ⟨?_, rfl, rfl, ?_, rfl, ?_, rfl, ?_, rfl, rfl, rfl, rfl, rfl, rfl⟩
  · simp only [netlifyRecognizedMethod, Bool.or_eq_false_iff] at h
    obtain ⟨⟨⟨⟨⟨⟨h1, hb2⟩, hb3⟩, hb4⟩, hb5⟩, hb6⟩, hb7⟩ := h
    unfold netlifyHandler netlifyCore
    dsimp only
    rw [if_neg (by decide), if_neg (by decide), if_neg (by simp [h1]),
      if_neg (by simp [hb2]), if_neg (by simp [hb3]), if_neg (by simp [hb4]),
      if_neg (by simp [hb5]), if_neg (by simp [hb6]), if_neg (by simp [hb7])]
  · simp only [mcpIndexRecognizedMethod, Bool.or_eq_false_iff] at h2
    obtain ⟨⟨⟨⟨⟨⟨⟨k1, k2⟩, k3⟩, k4⟩, k5⟩, k6⟩, k7⟩, k8⟩ := h2
    unfold mcpIndexHandler mcpIndexCore
    dsimp only
    rw [if_neg (by decide), if_neg (by decide), if_neg (by simp [k1]),
      if_neg (by simp [k2]), if_neg (by simp [k3]), if_neg (by simp [k4]),
      if_neg (by simp [k5]), if_neg (by simp [k6]), if_neg (by simp [k7]),
      if_neg (by simp [k8])]
  · simp only [mcpApiKnownMethod, Bool.or_eq_false_iff] at h3c
    obtain ⟨⟨m1, m2⟩, m3⟩ := h3c
    unfold mcpApiHandler mcpApiCore
    dsimp only
    rw [if_neg (by decide), if_neg (by decide),
      if_pos (by simp [h3a, h3b]), if_neg (by simp [m1]),
      if_neg (by simp [m2]), if_neg (by simp [m3])]
  · unfold v2SseHandlerPost v2SseCore
    dsimp only
    rw [if_neg hSp, if_neg (by simp [hS1]), if_neg (by simp [hS2])]

/-- C7 witness: the unrecognized method "foo/bar" (with ids 3, 7, 8 and 9
for the four generally-quantified handlers) exercises every hypothesis. -/
theorem c7_method_not_found_witness :
    netlifyRecognizedMethod
        (jsGet (.obj [("id", .num 3), ("method", .str "foo/bar")]) "method")
      = false
    ∧ mcpIndexRecognizedMethod
        (jsGet (.obj [("id", .num 7), ("method", .str "foo/bar")]) "method")
      = false
    ∧ mcpApiKnownMethod
        (jsGet (.obj [("jsonrpc", .str "2.0"), ("id", .num 8),
          ("method", .str "foo/bar")]) "method") = false
    ∧ ("/x" ≠ "/mcp/v2/bootstrap")
    ∧ netlifyHandler "POST"
        (.ok (.obj [("id", .num 3), ("method", .str "foo/bar")])) okNullOracle
      = ⟨200, some (netlifyMethodNotFoundBody
          (jsGet (.obj [("id", .num 3), ("method", .str "foo/bar")]) "id"))⟩
    ∧ mcpIndexHandler "POST"
        (.ok (.obj [("id", .num 7), ("method", .str "foo/bar")])) "T0"
        okNullOracle
      = ⟨200, some (mcpIndexMethodNotFoundBody
          (jsGet (.obj [("id", .num 7), ("method", .str "foo/bar")]) "id"))⟩
    ∧ mcpApiHandler "POST"
        (.ok (.obj [("jsonrpc", .str "2.0"), ("id", .num 8),
          ("method", .str "foo/bar")])) okNullOracle
      = ⟨200, some (mcpApiMethodNotFoundBody
          (jsGet (.obj [("jsonrpc", .str "2.0"), ("id", .num 8),
            ("method", .str "foo/bar")]) "id"))⟩
    ∧ v2SseHandlerPost "/x"
        (.ok (.obj [("id", .num 9), ("method", .str "foo/bar")])) "T0" "99"
        okNullOracle
      = ⟨200, some (v2SseNotFoundBody
          (jsGet (.obj [("id", .num 9), ("method", .str "foo/bar")]) "id"))⟩ := by
  have hmain := c7_method_not_found
    (.obj [("id", .num 3), ("method", .str "foo/bar")])
    (.obj [("id", .num 7), ("method", .str "foo/bar")])
    (.obj [("jsonrpc", .str "2.0"), ("id", .num 8), ("method", .str "foo/bar")])
    (.obj [("id", .num 9), ("method", .str "foo/bar")])
    "/x" okNullOracle okNullOracle okNullOracle (fun _ _ => .ok .null)
    "T0" "99" rfl rfl rfl rfl rfl (by decide) rfl rfl
  exact ⟨rfl, rfl, rfl, by decide, hmain.1, hmain.2.2.2.1,
    hmain.2.2.2.2.2.1, hmain.2.2.2.2.2.2.2.1⟩

/-- C7 counterexample: the claim covers every variant that routes JSON-RPC
methods, but the Deno server's -32601 response carries no `data` field at
all (the concrete unrecognized method "foo/bar", id 3). -/
theorem c7_counterexample :
    denoHandlerPost
        (.ok (.obj [("id", .num 3), ("method", .str "foo/bar")])) okNullOracle
      = ⟨200, some (rpcErrorBody (.num 3) (-32601)
          (.str "Method not found") none)⟩
    ∧ jsGet (jsGet (rpcErrorBody (.num 3) (-32601)
        (.str "Method not found") none) "error") "data" = JSValue.undefined :=
  ⟨rfl, rfl⟩

/-- Every Netlify tool-call response body echoes the routed id. -/
theorem netlifyToolCallResponse_id (rid nameV toolArgs : JSValue)
    (outcome : Except JSError JSValue) :
    (netlifyToolCallResponse rid nameV toolArgs outcome).body.map
        (fun b => jsGet b "id") = some rid := by
  cases outcome <;> rfl

/-- Every Deno tool-call response body echoes the routed id. -/
theorem denoToolCallResponse_id (rid : JSValue)
    (outcome : Except JSError JSValue) :
    (denoToolCallResponse rid outcome).body.map (fun b => jsGet b "id")
      = some rid := by
  cases outcome <;> rfl

/-- Every describe response body echoes the routed id. -/
theorem netlifyDescribeResponse_id (rid toolName : JSValue) :
    (netlifyDescribeResponse rid toolName).body.map (fun b => jsGet b "id")
      = some rid := by
  unfold netlifyDescribeResponse
  split <;> rfl

/-- Every api-mcp.js tool-call response body echoes the routed id. -/
theorem apiMcpToolCallResponse_id (rid : JSValue)
    (outcome : Except JSError JSValue) :
    (apiMcpToolCallResponse rid outcome).body.map (fun b => jsGet b "id")
      = some rid := by
  cases outcome <;> rfl

/-- Every Bun web tool-call response body echoes the routed id. -/
theorem bunWebToolCallResponse_id (rid : JSValue)
    (outcome : Except JSError JSValue) :
    (bunWebToolCallResponse rid outcome).body.map (fun b => jsGet b "id")
      = some rid := by
  cases outcome <;> rfl

/-- C8 (amended): in the Deno server, the main Netlify JSON-RPC function,
api-mcp.js, mcp/index.js, mcp-api.js and the Bun web server, every parsed
request whose `params` field is not null/undefined (so no exception
interrupts handling) receives a response body whose `id` equals the
request's `id` verbatim (number, string, null, or absent alike); a request
whose handling throws (e.g. `tools/call` with `params` absent) is answered
with `id: null` by the respective catch; mcp-v2-bootstrap (and the
mcp-v2-sse bootstrap path) substitutes the string "bootstrap-response" for
a falsy id instead of echoing it; mcp-v2-sse tool-call responses are
serialized `createSSEResponse` objects carrying no envelope `id` at all;
and the claude-desktop function's response bodies carry no `id` field. -/
theorem c8_id_echo (req : JSValue)
    (oA oB oC oD oE : RestCall → Except JSError JSValue)
    (sdk : JSValue → JSValue → Except JSError JSValue) (now : String)
    (h : (jsGet req "params").nullish = false) :
    ((denoHandlerPost (.ok req) oA).body.map (fun b => jsGet b "id")
        = some (jsGet req "id"))
    ∧ ((netlifyHandler "POST" (.ok req) oB).body.map (fun b => jsGet b "id")
        = some (jsGet req "id"))
    ∧ ((apiMcpHandler "POST" (.ok req) oC).body.map (fun b => jsGet b "id")
        = some (jsGet req "id"))
    ∧ ((mcpIndexHandler "POST" (.ok req) now oD).body.map
          (fun b => jsGet b "id")
        = some (jsGet req "id"))
    ∧ ((mcpApiHandler "POST" (.ok req) oE).body.map (fun b => jsGet b "id")
        = some (jsGet req "id"))
    ∧ ((bunWebHandlerPost (.ok req) sdk).body.map (fun b => jsGet b "id")
        = some (jsGet req "id"))
    ∧ ((v2BootstrapHandler "POST" "/mcp/v2/bootstrap"
          (.ok (.obj [("id", JSValue.null)])) "T0").body.map
            (fun b => jsGet b "id")
        = some (.str "bootstrap-response"))
    ∧ JSValue.str "bootstrap-response" ≠ JSValue.null
    ∧ ((v2SseHandlerPost "/mcp/v2/tools/call"
          (.ok (.obj [("id", .num 5), ("method", .str "tools/call"),
            ("params", .obj [("name", .str "get_events"),
              ("arguments", .obj [])])])) "T0" "99" okNullOracle).body.map
            (fun b => (jsGet b "jsonrpc", jsGet b "id"))
        = some (JSValue.undefined, JSValue.undefined)) := by
  refine ⟨?_, ?_, ?_, ?_, ?_, ?_, rfl, fun hx => JSValue.noConfusion hx, rfl⟩
  · unfold denoHandlerPost denoCore
    dsimp only
    by_cases hm1 : ((jsGet req "method").isStr "tools.list"
        || (jsGet req "method").isStr "tools/list") = true
    · rw [if_pos hm1]; rfl
    · rw [if_neg hm1]
      by_cases hm2 : ((jsGet req "method").isStr "tools.call"
          || (jsGet req "method").isStr "tools/call") = true
      · rw [if_pos hm2, if_neg (by simp [h])]
        exact denoToolCallResponse_id _ _
      · rw [if_neg hm2]; rfl
  · unfold netlifyHandler
    rw [if_neg (by decide), if_neg (by decide)]
    dsimp only
    unfold netlifyCore
    dsimp only
    by_cases h1 : (jsGet req "method").isStr "getModels" = true
    · rw [if_pos h1]; rfl
    · rw [if_neg h1]
      by_cases h2 : (jsGet req "method").isStr "connectMCPServer" = true
      · rw [if_pos h2]; rfl
      · rw [if_neg h2]
        by_cases h3 : (jsGet req "method").isStr "initialize" = true
        · rw [if_pos h3]; rfl
        · rw [if_neg h3]
          by_cases h4 : (jsGet req "method").isStr "tools/list" = true
          · rw [if_pos h4]; rfl
          · rw [if_neg h4]
            by_cases h5 : (jsGet req "method").isStr "tools/call" = true
            · rw [if_pos h5, if_neg (by simp [h])]
              exact netlifyToolCallResponse_id _ _ _ _
            · rw [if_neg h5]
              by_cases h6 : (jsGet req "method").isStr "tools/describe" = true
              · rw [if_pos h6, if_neg (by simp [h])]
                exact netlifyDescribeResponse_id _ _
              · rw [if_neg h6]
                by_cases h7 : (jsGet req "method").isStr "server/info" = true
                · rw [if_pos h7]; rfl
                · rw [if_neg h7]; rfl
  · unfold apiMcpHandler
    rw [if_neg (by decide)]
    dsimp only
    unfold apiMcpCore
    dsimp only
    by_cases hm1 : ((jsGet req "method").isStr "tools.list"
        || (jsGet req "method").isStr "tools/list") = true
    · rw [if_pos hm1]; rfl
    · rw [if_neg hm1]
      by_cases hm2 : ((jsGet req "method").isStr "tools.call"
          || (jsGet req "method").isStr "tools/call") = true
      · rw [if_pos hm2, if_neg (by simp [h])]
        exact apiMcpToolCallResponse_id _ _
      · rw [if_neg hm2]; rfl
  · unfold mcpIndexHandler
    rw [if_neg (by decide), if_neg (by decide)]
    dsimp only
    unfold mcpIndexCore
    dsimp only
    by_cases k1 : (jsGet req "method").isStr "getModels" = true
    · rw [if_pos k1]; rfl
    · rw [if_neg k1]
      by_cases k2 : (jsGet req "method").isStr "connectMCPServer" = true
      · rw [if_pos k2]; rfl
      · rw [if_neg k2]
        by_cases k3 : (jsGet req "method").isStr "initialize" = true
        · rw [if_pos k3]; rfl
        · rw [if_neg k3]
          by_cases k4 : (jsGet req "method").isStr "tools/list" = true
          · rw [if_pos k4]; rfl
          · rw [if_neg k4]
            by_cases k5 : (jsGet req "method").isStr "tools/call" = true
            · rw [if_pos k5, if_neg (by simp [h])]
              exact netlifyToolCallResponse_id _ _ _ _
            · rw [if_neg k5]
              by_cases k6 : (jsGet req "method").isStr "tools/describe" = true
              · rw [if_pos k6, if_neg (by simp [h])]
                exact netlifyDescribeResponse_id _ _
              · rw [if_neg k6]
                by_cases k7 : (jsGet req "method").isStr "server/info" = true
                · rw [if_pos k7]; rfl
                · rw [if_neg k7]
                  by_cases k8 : (jsGet req "method").isStr "health" = true
                  · rw [if_pos k8]; rfl
                  · rw [if_neg k8]; rfl
  · unfold mcpApiHandler
    rw [if_neg (by decide), if_neg (by decide)]
    dsimp only
    unfold mcpApiCore
    dsimp only
    by_cases hfmt : ((jsGet req "jsonrpc").isStr "2.0"
        && (jsGet req "method").truthy) = true
    · rw [if_pos hfmt]
      by_cases m1 : (jsGet req "method").isStr "initialize" = true
      · rw [if_pos m1]; rfl
      · rw [if_neg m1]
        by_cases m2 : (jsGet req "method").isStr "tools/list" = true
        · rw [if_pos m2]; rfl
        · rw [if_neg m2]
          by_cases m3 : (jsGet req "method").isStr "tools/call" = true
          · rw [if_pos m3, if_neg (by simp [h])]
            exact netlifyToolCallResponse_id _ _ _ _
          · rw [if_neg m3]; rfl
    · rw [if_neg hfmt]; rfl
  · unfold bunWebHandlerPost bunWebCore
    dsimp only
    by_cases b1 : (jsGet req "method").isStr "tools.list" = true
    · rw [if_pos b1]; rfl
    · rw [if_neg b1]
      by_cases b2 : (jsGet req "method").isStr "tools.call" = true
      · rw [if_pos b2, if_neg (by simp [h])]
        exact bunWebToolCallResponse_id _ _
      · rw [if_neg b2]; rfl

/-- C8 witness: a `tools/list` request with id 9 and object params,
answered by the six id-echoing handlers with id 9 echoed. -/
theorem c8_id_echo_witness :
    ((jsGet (.obj [("jsonrpc", .str "2.0"), ("id", .num 9),
        ("method", .str "tools/list"), ("params", .obj [])])
        "params").nullish = false)
    ∧ (((denoHandlerPost
          (.ok (.obj [("jsonrpc", .str "2.0"), ("id", .num 9),
            ("method", .str "tools/list"), ("params", .obj [])]))
          okNullOracle).body.map (fun b => jsGet b "id")
        = some (jsGet (.obj [("jsonrpc", .str "2.0"), ("id", .num 9),
            ("method", .str "tools/list"), ("params", .obj [])]) "id"))
      ∧ ((netlifyHandler "POST"
          (.ok (.obj [("jsonrpc", .str "2.0"), ("id", .num 9),
            ("method", .str "tools/list"), ("params", .obj [])]))
          okNullOracle).body.map (fun b => jsGet b "id")
        = some (jsGet (.obj [("jsonrpc", .str "2.0"), ("id", .num 9),
            ("method", .str "tools/list"), ("params", .obj [])]) "id"))) :=
  have hmain := c8_id_echo
    (.obj [("jsonrpc", .str "2.0"), ("id", .num 9),
      ("method", .str "tools/list"), ("params", .obj [])])
    okNullOracle okNullOracle okNullOracle okNullOracle okNullOracle
    (fun _ _ => .ok .null) "T0" rfl
  ⟨rfl, hmain.1, hmain.2.1⟩

/-- C8 counterexample: the claim covers every variant that answers JSON-RPC
requests, but the claude-desktop-format function's response to a parsed
request with id 7 carries no `id` field at all (`undefined` on lookup,
which the final serialization drops), so the id is not echoed verbatim. -/
theorem c8_counterexample :
    ((claudeHandler "POST"
        (.ok (.obj [("args", .arr [.str "u", .null]), ("id", .num 7),
          ("method", .str "tools/list"), ("type", .str "rpc")]))
        "T0" okNullOracle).body.map (fun b => jsGet b "id")
      = some JSValue.undefined)
    ∧ jsGet (.obj [("args", .arr [.str "u", .null]), ("id", .num 7),
        ("method", .str "tools/list"), ("type", .str "rpc")]) "id"
      = JSValue.num 7
    ∧ JSValue.undefined ≠ JSValue.num 7 :=
  ⟨rfl, rfl, fun h => JSValue.noConfusion h⟩

/-- The GET built from a rest-destructured arguments object never carries
the removed path-segment key as a query parameter. -/
theorem mint_key_not_in_split_query (toolArgs : JSValue)
    (path key : String) :
    key ∉ (dflowGet path (some (restWithout toolArgs key))).query.map
      Prod.fst := by
  intro hmem
  have ht : (restWithout toolArgs key).truthy = true := rfl
  unfold dflowGet at hmem
  dsimp only at hmem
  rw [if_pos ht, dflowSerializeEntries_eq] at hmem
  simp only [List.map_map, List.mem_map, List.mem_filter,
    Function.comp_apply, decide_eq_true_eq] at hmem
  obtain ⟨kv, ⟨hin, hnn⟩, hk⟩ := hmem
  have hkey : kv.1 ≠ key := by
    have : kv ∈ jsEntries (restWithout toolArgs key) := hin
    simp only [restWithout, jsEntries, List.mem_filter,
      decide_eq_true_eq] at this
    exact this.2
  exact hkey hk

/-- The stdio tools that route through a `by-mint` path segment: the four
rest-destructuring ones plus `get_market_by_mint`, which forwards no
parameters at all. -/
def byMintTools : List String :=
  ["get_market_by_mint", "get_trades_by_mint",
   "get_forecast_percentile_history_by_mint",
   "get_market_candlesticks_by_mint", "get_live_data_by_mint"]

/-- C9: the by-mint argument split: for `get_live_data_by_mint`, with only
the required `mint_address` present the dispatcher issues exactly one GET
to `/api/v1/live_data/by-mint/\x7bmint_address\x7d` with an empty query
set, and optional filters present alongside it are forwarded as query
parameters; and for every by-mint tool of the stdio dispatcher,
`mint_address` is never forwarded as a query parameter, with the
mint-only call always carrying an empty query. -/
theorem c9_by_mint_args_split :
    (∀ (m : String),
      routeTool "get_live_data_by_mint" (.obj [("mint_address", .str m)])
        = some { method := "GET",
                 path := "/api/v1/live_data/by-mint/" ++ m,
                 query := [], body := none })
    ∧ (∀ (m c : String),
      routeTool "get_live_data_by_mint"
          (.obj [("mint_address", .str m), ("category", .str c)])
        = some { method := "GET",
                 path := "/api/v1/live_data/by-mint/" ++ m,
                 query := [("category", c)], body := none })
    ∧ (∀ (toolArgs : JSValue) (call : RestCall),
        routeTool "get_live_data_by_mint" toolArgs = some call →
          "mint_address" ∉ call.query.map Prod.fst)
    ∧ (∀ (name : String), name ∈ byMintTools →
        ∀ (toolArgs : JSValue) (call : RestCall),
          routeTool name toolArgs = some call →
            "mint_address" ∉ call.query.map Prod.fst)
    ∧ (∀ (name : String), name ∈ byMintTools → ∀ (m : String),
        ∃ call, routeTool name (.obj [("mint_address", .str m)]) = some call
          ∧ call.query = []) := by
  have hsplit : ∀ (toolArgs : JSValue) (call : RestCall) (path : String),
      some (dflowGet path (some (restWithout toolArgs "mint_address")))
        = some call →
      "mint_address" ∉ call.query.map Prod.fst := by
    intro toolArgs call path hc
    rw [Option.some_inj] at hc
    subst hc
    exact mint_key_not_in_split_query toolArgs path "mint_address"
  refine ⟨fun m => rfl, fun m c => rfl,
    fun toolArgs call hc => hsplit toolArgs call _ hc,
    fun name hname toolArgs call hc => ?_, fun name hname m => ?_⟩
  · simp only [byMintTools, List.mem_cons, List.not_mem_nil, or_false]
      at hname
    rcases hname with rfl | rfl | rfl | rfl | rfl
    · rw [show routeTool "get_market_by_mint" toolArgs
          = some (dflowGet ("/api/v1/market/by-mint/"
              ++ jsToString (jsGet toolArgs "mint_address")) none) from rfl,
        Option.some_inj] at hc
      subst hc
      exact fun hmem => List.not_mem_nil _ hmem
    · exact hsplit toolArgs call _ hc
    · exact hsplit toolArgs call _ hc
    · exact hsplit toolArgs call _ hc
    · exact hsplit toolArgs call _ hc
  · simp only [byMintTools, List.mem_cons, List.not_mem_nil, or_false]
      at hname
    rcases hname with rfl | rfl | rfl | rfl | rfl
    · exact ⟨_, rfl, rfl⟩
    · exact ⟨_, rfl, rfl⟩
    · exact ⟨_, rfl, rfl⟩
    · exact ⟨_, rfl, rfl⟩
    · exact ⟨_, rfl, rfl⟩

/-- C9 witness: the all-optional-absent case and the forwarded-filter case
evaluated at concrete arguments, the never-forwarded fact applied at a
concrete call, and the general by-mint conjunct applied to a concrete
`get_trades_by_mint` call. -/
theorem c9_by_mint_args_split_witness :
    routeTool "get_live_data_by_mint"
        (.obj [("mint_address", .str "M1"), ("category", .str "sports")])
      = some { method := "GET", path := "/api/v1/live_data/by-mint/M1",
               query := [("category", "sports")], body := none }
    ∧ "mint_address" ∉
        ({ method := "GET", path := "/api/v1/live_data/by-mint/M1",
           query := [("category", "sports")], body := none } : RestCall).query.map
          Prod.fst
    ∧ ("get_trades_by_mint" ∈ byMintTools)
    ∧ routeTool "get_trades_by_mint"
        (.obj [("mint_address", .str "M1"), ("limit", .num 5)])
      = some { method := "GET", path := "/api/v1/trades/by-mint/M1",
               query := [("limit", "5")], body := none }
    ∧ "mint_address" ∉
        ({ method := "GET", path := "/api/v1/trades/by-mint/M1",
           query := [("limit", "5")], body := none } : RestCall).query.map
          Prod.fst :=
  ⟨rfl,
    c9_by_mint_args_split.2.2.1
      (.obj [("mint_address", .str "M1"), ("category", .str "sports")])
      { method := "GET", path := "/api/v1/live_data/by-mint/M1",
        query := [("category", "sports")], body := none } rfl,
    by decide, rfl,
    c9_by_mint_args_split.2.2.2.1 "get_trades_by_mint" (by decide)
      (.obj [("mint_address", .str "M1"), ("limit", .num 5)])
      { method := "GET", path := "/api/v1/trades/by-mint/M1",
        query := [("limit", "5")], body := none } rfl⟩

end DflowMcp
